import Mathlib

/-!
Verification of the LeanIX survey validation engine (`src/leanix_survey_models.py`,
`src/validate_survey.py`, `src/leanix_client.py`, `src/api.py`).

The pydantic models are shallowly embedded: JSON documents (the output of
`json.loads`) are an inductive `Json` type; each pydantic model becomes a Lean
structure/inductive together with a parser `Json → Except (List ValErr) α`
that mirrors pydantic v2 semantics as exercised by this code base:
field lookup by alias first, then by field name (`populate_by_name = True`),
explicit `null` accepted for `X | None` fields, errors accumulated across
fields in declaration order with `(location, message)` pairs, `@field_validator`
run only on explicitly provided values after type validation, and
`@model_validator(mode="after")` run only when all field validations succeeded,
reporting its error at the model's own location.
Lax string/number coercions of the validation library (e.g. `"1"` to an int)
are not modelled; no claim depends on them.
-/

namespace LeanixSurvey

/-- JSON values, the result of Python's `json.loads`. Numbers are modelled as
integers (no field of the survey schema is a float). Objects keep key order. -/
inductive Json where
  | null : Json
  | bool (b : Bool) : Json
  | num (n : Int) : Json
  | str (s : String) : Json
  | arr (elems : List Json) : Json
  | obj (fields : List (String × Json)) : Json
deriving Repr

/-- One segment of an error location, as in pydantic's `error["loc"]` tuples:
either a field key or a sequence index. -/
inductive Loc where
  | key (k : String) : Loc
  | idx (i : Nat) : Loc
deriving Repr, DecidableEq

/-- A single validation error: location path plus message,
as in one entry of `ValidationError.errors()`. -/
abbrev ValErr := List Loc × String

/-- Validation result: either the parsed value or the accumulated error list. -/
abbrev VRes (α : Type) := Except (List ValErr) α

/-- First binding of a key in a JSON object (Python dicts from `json.loads`
keep the last duplicate, but duplicate keys do not occur in the documents
under study; first-binding lookup agrees with dict lookup on duplicate-free
objects). -/
def findKey : List (String × Json) → String → Option Json
  | [], _ => none
  | (k, v) :: rest, key => if k = key then some v else findKey rest key

/-- pydantic field lookup with `populate_by_name = True`: the alias (wire name)
is consulted first, then the Python field name. -/
def lookupAliased (fs : List (String × Json)) (wireName pyName : String) : Option Json :=
  match findKey fs wireName with
  | some v => some v
  | none => findKey fs pyName

/-- As `lookupAliased`, but also returning which input key matched: pydantic
locates a field's errors at the input key actually used, so the key is part
of the lookup outcome. -/
def lookupAliasedKey (fs : List (String × Json)) (wireName pyName : String) :
    Option (String × Json) :=
  match findKey fs wireName with
  | some v => some (wireName, v)
  | none =>
    match findKey fs pyName with
    | some v => some (pyName, v)
    | none => none

/-- Whether a JSON value is `null`. -/
def Json.isNull : Json → Bool
  | .null => true
  | _ => false

/-- Prefix a location segment onto every error of a result. -/
def withLoc (l : Loc) : VRes α → VRes α
  | .ok a => .ok a
  | .error es => .error (es.map (fun e => (l :: e.1, e.2)))

/-- The errors of a result (`[]` when it succeeded). -/
def errsOf : VRes α → List ValErr
  | .ok _ => []
  | .error es => es

/-- Whether a result is an error. -/
def isErr : VRes α → Bool
  | .ok _ => false
  | .error _ => true

/-- Python's whitespace test underlying `str.strip()` (`str.isspace`): the
Unicode whitespace characters — U+0009..U+000D, U+001C..U+001F, space,
U+0085, U+00A0, U+1680, U+2000..U+200A, U+2028, U+2029, U+202F, U+205F and
U+3000 (categories Zs/Zl/Zp plus bidirectional classes WS, B, S). -/
def pyIsSpace (c : Char) : Bool :=
  ('\x09' ≤ c && c ≤ '\x0d') || c = ' ' || ('\x1c' ≤ c && c ≤ '\x1f') ||
  c = '\x85' || c = '\xa0' || c = '\u1680' || ('\u2000' ≤ c && c ≤ '\u200a') ||
  c = '\u2028' || c = '\u2029' || c = '\u202f' || c = '\u205f' || c = '\u3000'

/-- Python's `str.strip()`: drop leading and trailing whitespace. -/
def pyStrip (s : String) : String :=
  ⟨((s.data.dropWhile pyIsSpace).reverse.dropWhile pyIsSpace).reverse⟩

/-- Parse a required JSON string (pydantic `str`). -/
def parseStrJ : Json → VRes String
  | .str s => .ok s
  | _ => .error [([], "Input should be a valid string")]

/-- Parse a required JSON bool (pydantic `bool`; lax coercions not modelled). -/
def parseBoolJ : Json → VRes Bool
  | .bool b => .ok b
  | _ => .error [([], "Input should be a valid boolean")]

/-- Parse a required JSON integer (pydantic `int`; lax coercions not modelled). -/
def parseIntJ : Json → VRes Int
  | .num n => .ok n
  | _ => .error [([], "Input should be a valid integer")]

/-- A calendar date as Python's `datetime.date` (validity beyond basic range
checks is not modelled; no claim depends on calendar arithmetic). -/
structure PyDate where
  year : Nat
  month : Nat
  day : Nat
deriving Repr, DecidableEq

/-- Render a date back to its ISO form, zero-padded. -/
def padNum (width : Nat) (n : Nat) : String :=
  let s := toString n
  (String.mk (List.replicate (width - s.length) '0')) ++ s

def dateToISO (d : PyDate) : String :=
  padNum 4 d.year ++ "-" ++ padNum 2 d.month ++ "-" ++ padNum 2 d.day

/-- Parse a pydantic `date` from an ISO `YYYY-MM-DD` JSON string. -/
def parseDateJ : Json → VRes PyDate
  | .str s =>
    match (s.splitOn "-").map String.toNat? with
    | [some y, some m, some d] =>
      if 1 ≤ m ∧ m ≤ 12 ∧ 1 ≤ d ∧ d ≤ 31 then .ok ⟨y, m, d⟩
      else .error [([], "Input should be a valid date")]
    | _ => .error [([], "Input should be a valid date")]
  | _ => .error [([], "Input should be a valid date")]

/-- A required field: a missing key is `Field required` at the field's wire
name (nothing matched, so the alias is reported); errors of the field parser
are prefixed with the input key that matched. -/
def reqField (fs : List (String × Json)) (wireName pyName : String)
    (p : Json → VRes α) : VRes α :=
  match lookupAliasedKey fs wireName pyName with
  | none => .error [([Loc.key wireName], "Field required")]
  | some (k, j) => withLoc (.key k) (p j)

/-- An optional (`X | None = None`) field: absent or explicit `null` is
`none`; errors of the field parser are prefixed with the input key that
matched. -/
def optField (fs : List (String × Json)) (wireName pyName : String)
    (p : Json → VRes α) : VRes (Option α) :=
  match lookupAliasedKey fs wireName pyName with
  | none => .ok none
  | some (k, j) =>
    if j.isNull then .ok none
    else
      match withLoc (.key k) (p j) with
      | .ok a => .ok (some a)
      | .error es => .error es

/-- Parse the elements of a JSON list, locating errors by index and
accumulating errors across elements. -/
def parseListWith (p : Json → VRes α) : Nat → List Json → VRes (List α)
  | _, [] => .ok []
  | i, j :: rest =>
    match withLoc (.idx i) (p j), parseListWith p (i + 1) rest with
    | .ok a, .ok as => .ok (a :: as)
    | r1, r2 =>
      .error (errsOf r1 ++ errsOf r2)

/-- Parse a pydantic `list[X]` field value. -/
def parseArrWith (p : Json → VRes α) : Json → VRes (List α)
  | .arr xs => parseListWith p 0 xs
  | _ => .error [([], "Input should be a valid list")]

/-- Parse a pydantic `dict[str, Any]` value: any JSON object, kept opaque. -/
def parseDictAny : Json → VRes (List (String × Json))
  | .obj fs => .ok fs
  | _ => .error [([], "Input should be a valid dictionary")]

/-- Parse a pydantic `dict[str, str]` value. -/
def parseDictStr : Json → VRes (List (String × String))
  | .obj fs =>
    let step : String × Json → VRes (String × String) := fun kv =>
      match kv.2 with
      | .str s => .ok (kv.1, s)
      | _ => .error [([Loc.key kv.1], "Input should be a valid string")]
    let rec go : List (String × Json) → VRes (List (String × String))
      | [] => .ok []
      | kv :: rest =>
        match step kv, go rest with
        | .ok a, .ok as => .ok (a :: as)
        | r1, r2 => .error (errsOf r1 ++ errsOf r2)
    go fs
  | _ => .error [([], "Input should be a valid dictionary")]

/-! ## Enumerated vocabularies (`leanix_survey_models.py`, Enums section) -/

/-- User subscription types for role-based filtering. -/
inductive SubscriptionType where
  | RESPONSIBLE | OBSERVER | ACCOUNTABLE | ALL
deriving Repr, DecidableEq

def parseSubscriptionType : Json → VRes SubscriptionType
  | .str "RESPONSIBLE" => .ok .RESPONSIBLE
  | .str "OBSERVER" => .ok .OBSERVER
  | .str "ACCOUNTABLE" => .ok .ACCOUNTABLE
  | .str "ALL" => .ok .ALL
  | _ => .error [([], "Input should be RESPONSIBLE, OBSERVER, ACCOUNTABLE or ALL")]

def SubscriptionType.toWire : SubscriptionType → String
  | .RESPONSIBLE => "RESPONSIBLE"
  | .OBSERVER => "OBSERVER"
  | .ACCOUNTABLE => "ACCOUNTABLE"
  | .ALL => "ALL"

/-- Permission levels for poll participants. -/
inductive AllowedPermissionStatus where
  | ACTIVE_ONLY | ACTIVE_AND_INVITED | ACTIVE_AND_INVITED_AND_CONTACTS
deriving Repr, DecidableEq

def parseAllowedPermissionStatus : Json → VRes AllowedPermissionStatus
  | .str "ACTIVE_ONLY" => .ok .ACTIVE_ONLY
  | .str "ACTIVE_AND_INVITED" => .ok .ACTIVE_AND_INVITED
  | .str "ACTIVE_AND_INVITED_AND_CONTACTS" => .ok .ACTIVE_AND_INVITED_AND_CONTACTS
  | _ =>
    .error [([],
      "Input should be ACTIVE_ONLY, ACTIVE_AND_INVITED or ACTIVE_AND_INVITED_AND_CONTACTS")]

def AllowedPermissionStatus.toWire : AllowedPermissionStatus → String
  | .ACTIVE_ONLY => "ACTIVE_ONLY"
  | .ACTIVE_AND_INVITED => "ACTIVE_AND_INVITED"
  | .ACTIVE_AND_INVITED_AND_CONTACTS => "ACTIVE_AND_INVITED_AND_CONTACTS"

/-- Date filter types for fact sheet queries. -/
inductive DateFilterType where
  | POINT | RANGE | TODAY | END_OF_MONTH | END_OF_YEAR | RANGE_STARTS | RANGE_ENDS
deriving Repr, DecidableEq

def parseDateFilterType : Json → VRes DateFilterType
  | .str "POINT" => .ok .POINT
  | .str "RANGE" => .ok .RANGE
  | .str "TODAY" => .ok .TODAY
  | .str "END_OF_MONTH" => .ok .END_OF_MONTH
  | .str "END_OF_YEAR" => .ok .END_OF_YEAR
  | .str "RANGE_STARTS" => .ok .RANGE_STARTS
  | .str "RANGE_ENDS" => .ok .RANGE_ENDS
  | _ => .error [([], "Input should be a valid DateFilterType")]

def DateFilterType.toWire : DateFilterType → String
  | .POINT => "POINT"
  | .RANGE => "RANGE"
  | .TODAY => "TODAY"
  | .END_OF_MONTH => "END_OF_MONTH"
  | .END_OF_YEAR => "END_OF_YEAR"
  | .RANGE_STARTS => "RANGE_STARTS"
  | .RANGE_ENDS => "RANGE_ENDS"

/-- Logical operators for combining filters. -/
inductive FacetFilterOperator where
  | AND | OR | NOR
deriving Repr, DecidableEq

def parseFacetFilterOperator : Json → VRes FacetFilterOperator
  | .str "AND" => .ok .AND
  | .str "OR" => .ok .OR
  | .str "NOR" => .ok .NOR
  | _ => .error [([], "Input should be AND, OR or NOR")]

def FacetFilterOperator.toWire : FacetFilterOperator → String
  | .AND => "AND"
  | .OR => "OR"
  | .NOR => "NOR"

/-! ## Supporting models -/

/-- Property definition for fact sheet elements (`ElementProperty`). -/
structure ElementProperty where
  name : String
deriving Repr, DecidableEq

def parseElementProperty : Json → VRes ElementProperty
  | .obj fs =>
    match reqField fs "name" "name" parseStrJ with
    | .ok n => .ok ⟨n⟩
    | .error es => .error es
  | _ => .error [([], "Input should be a valid dictionary")]

/-- Fact sheet element configuration (`FactSheetElement`, `populate_by_name`). -/
structure FactSheetElement where
  type : Option String
  tag_group_id : Option String
  subscription : Option (List (String × Json))
  fact_sheet_field_name : Option String
  fact_sheet_field_type : Option String
  tag_group_mode : Option String
  fact_sheet_field_view_type : Option String
  properties : Option (List ElementProperty)
deriving Repr

def parseFactSheetElement : Json → VRes FactSheetElement
  | .obj fs =>
    let r1 := optField fs "type" "type" parseStrJ
    let r2 := optField fs "tagGroupId" "tag_group_id" parseStrJ
    let r3 := optField fs "subscription" "subscription" parseDictAny
    let r4 := optField fs "factSheetFieldName" "fact_sheet_field_name" parseStrJ
    let r5 := optField fs "factSheetFieldType" "fact_sheet_field_type" parseStrJ
    let r6 := optField fs "tagGroupMode" "tag_group_mode" parseStrJ
    let r7 := optField fs "factSheetFieldViewType" "fact_sheet_field_view_type" parseStrJ
    let r8 := optField fs "properties" "properties" (parseArrWith parseElementProperty)
    match r1, r2, r3, r4, r5, r6, r7, r8 with
    | .ok a1, .ok a2, .ok a3, .ok a4, .ok a5, .ok a6, .ok a7, .ok a8 =>
      .ok ⟨a1, a2, a3, a4, a5, a6, a7, a8⟩
    | _, _, _, _, _, _, _, _ =>
      .error (errsOf r1 ++ errsOf r2 ++ errsOf r3 ++ errsOf r4 ++
        errsOf r5 ++ errsOf r6 ++ errsOf r7 ++ errsOf r8)
  | _ => .error [([], "Input should be a valid dictionary")]

/-- Configuration for conditional question dependencies (`DependencySettings`). -/
structure DependencySettings where
  parent_id : String
  condition : List (String × Json)
deriving Repr

def parseDependencySettings : Json → VRes DependencySettings
  | .obj fs =>
    let r1 := reqField fs "parentId" "parent_id" parseStrJ
    let r2 := reqField fs "condition" "condition" parseDictAny
    match r1, r2 with
    | .ok a1, .ok a2 => .ok ⟨a1, a2⟩
    | _, _ => .error (errsOf r1 ++ errsOf r2)
  | _ => .error [([], "Input should be a valid dictionary")]

/-- Advanced settings for questions (`QuestionSettings`, all fields optional). -/
structure QuestionSettings where
  metrics : Option (List (String × String))
  version : Option Int
  hide_in_results : Option Bool
  is_conditional : Option Bool
  fs_sections : Option (List (String × Json))
  formula : Option String
  dependency : Option DependencySettings
  is_mandatory : Option Bool
deriving Repr

def parseQuestionSettings : Json → VRes QuestionSettings
  | .obj fs =>
    let r1 := optField fs "metrics" "metrics" parseDictStr
    let r2 := optField fs "version" "version" parseIntJ
    let r3 := optField fs "hideInResults" "hide_in_results" parseBoolJ
    let r4 := optField fs "isConditional" "is_conditional" parseBoolJ
    let r5 := optField fs "fsSections" "fs_sections" parseDictAny
    let r6 := optField fs "formula" "formula" parseStrJ
    let r7 := optField fs "dependency" "dependency" parseDependencySettings
    let r8 := optField fs "isMandatory" "is_mandatory" parseBoolJ
    match r1, r2, r3, r4, r5, r6, r7, r8 with
    | .ok a1, .ok a2, .ok a3, .ok a4, .ok a5, .ok a6, .ok a7, .ok a8 =>
      .ok ⟨a1, a2, a3, a4, a5, a6, a7, a8⟩
    | _, _, _, _, _, _, _, _ =>
      .error (errsOf r1 ++ errsOf r2 ++ errsOf r3 ++ errsOf r4 ++
        errsOf r5 ++ errsOf r6 ++ errsOf r7 ++ errsOf r8)
  | _ => .error [([], "Input should be a valid dictionary")]

/-- Option for multiple choice questions (`QuestionOption`). -/
structure QuestionOption where
  id : String
  label : String
  comment : Option String
deriving Repr, DecidableEq

def parseQuestionOption : Json → VRes QuestionOption
  | .obj fs =>
    let r1 := reqField fs "id" "id" parseStrJ
    let r2 := reqField fs "label" "label" parseStrJ
    let r3 := optField fs "comment" "comment" parseStrJ
    match r1, r2, r3 with
    | .ok a1, .ok a2, .ok a3 => .ok ⟨a1, a2, a3⟩
    | _, _, _ => .error (errsOf r1 ++ errsOf r2 ++ errsOf r3)
  | _ => .error [([], "Input should be a valid dictionary")]

/-! ## Question (recursive model) -/

/-- Survey question definition (`Question`); `children` makes it recursive. -/
inductive Question where
  | mk
    (id : String)
    (label : String)
    (descriptive_text : Option String)
    (type : String)
    (element : Option String)
    (options : Option (List QuestionOption))
    (answer_options : Option String)
    (children : Option (List Question))
    (powerfeature : Option Bool)
    (disabled : Option Bool)
    (fact_sheet_element : Option FactSheetElement)
    (settings : Option QuestionSettings) : Question

def Question.id : Question → String
  | .mk v _ _ _ _ _ _ _ _ _ _ _ => v
def Question.label : Question → String
  | .mk _ v _ _ _ _ _ _ _ _ _ _ => v
def Question.descriptive_text : Question → Option String
  | .mk _ _ v _ _ _ _ _ _ _ _ _ => v
def Question.type : Question → String
  | .mk _ _ _ v _ _ _ _ _ _ _ _ => v
def Question.element : Question → Option String
  | .mk _ _ _ _ v _ _ _ _ _ _ _ => v
def Question.options : Question → Option (List QuestionOption)
  | .mk _ _ _ _ _ v _ _ _ _ _ _ => v
def Question.answer_options : Question → Option String
  | .mk _ _ _ _ _ _ v _ _ _ _ _ => v
def Question.children : Question → Option (List Question)
  | .mk _ _ _ _ _ _ _ v _ _ _ _ => v
def Question.powerfeature : Question → Option Bool
  | .mk _ _ _ _ _ _ _ _ v _ _ _ => v
def Question.disabled : Question → Option Bool
  | .mk _ _ _ _ _ _ _ _ _ v _ _ => v
def Question.fact_sheet_element : Question → Option FactSheetElement
  | .mk _ _ _ _ _ _ _ _ _ _ v _ => v
def Question.settings : Question → Option QuestionSettings
  | .mk _ _ _ _ _ _ _ _ _ _ _ v => v

theorem sizeOf_findKey {fs : List (String × Json)} {k : String} {v : Json}
    (h : findKey fs k = some v) : sizeOf v < sizeOf (Json.obj fs) := by
  induction fs with
  | nil => simp [findKey] at h
  | cons p rest ih =>
    obtain ⟨a, b⟩ := p
    by_cases hak : a = k
    · simp [findKey, hak] at h
      subst h
      simp
      omega
    · simp [findKey, hak] at h
      have := ih h
      simp at this ⊢
      omega

theorem sizeOf_lookupAliased {fs : List (String × Json)} {a b : String} {v : Json}
    (h : lookupAliased fs a b = some v) : sizeOf v < sizeOf (Json.obj fs) := by
  unfold lookupAliased at h
  cases hf : findKey fs a with
  | some w =>
    rw [hf] at h
    cases h
    exact sizeOf_findKey hf
  | none =>
    rw [hf] at h
    exact sizeOf_findKey h

theorem sizeOf_lookupAliasedKey {fs : List (String × Json)} {a b k : String} {v : Json}
    (h : lookupAliasedKey fs a b = some (k, v)) : sizeOf v < sizeOf (Json.obj fs) := by
  unfold lookupAliasedKey at h
  cases hf : findKey fs a with
  | some w =>
    rw [hf] at h
    cases h
    exact sizeOf_findKey hf
  | none =>
    rw [hf] at h
    cases hg : findKey fs b with
    | some w =>
      rw [hg] at h
      cases h
      exact sizeOf_findKey hg
    | none => rw [hg] at h; cases h

/-- Message of `Question.check_choice_questions_have_options`
(the `@model_validator(mode="after")`), wrapped as pydantic renders a
validator `ValueError`. -/
def choiceModelMsg (t : String) : String :=
  "Value error, Questions of type \x27" ++ t ++ "\x27 must have at least one option"

/-- Message of `Question.validate_options_for_choice_questions`
(the `@field_validator("options")`), wrapped as pydantic renders it. -/
def choiceFieldMsg (t : String) : String :=
  "Value error, Questions of type " ++ t ++ " must have options"

/-- The `options` field of `Question`: after type validation, the
`@field_validator("options")` runs on every explicitly provided value
(including `null`), reading the already-validated `type` from `info.data`;
it does not run when the field is absent (pydantic does not validate
defaults). -/
def parseOptionsField (fs : List (String × Json)) (rtype : VRes String) :
    VRes (Option (List QuestionOption)) :=
  let tyData : Option String := match rtype with | .ok t => some t | .error _ => none
  let isChoice : Bool := match tyData with
    | some t => t = "singlechoice" || t = "multiplechoice"
    | none => false
  let tyText : String := match tyData with | some t => t | none => "None"
  match lookupAliased fs "options" "options" with
  | none => .ok none
  | some .null =>
    if isChoice then .error [([Loc.key "options"], choiceFieldMsg tyText)]
    else .ok none
  | some j =>
    match withLoc (.key "options") (parseArrWith parseQuestionOption j) with
    | .ok opts =>
      if isChoice && opts.isEmpty then
        .error [([Loc.key "options"], choiceFieldMsg tyText)]
      else .ok (some opts)
    | .error es => .error es

mutual

/-- Parse and validate a `Question` from JSON: fields in declaration order with
accumulated errors, then (only when every field validated) the
`@model_validator(mode="after")` `check_choice_questions_have_options`,
whose error is reported at the question's own location. -/
def parseQuestion : Json → VRes Question
  | .obj fs =>
    let r1 := reqField fs "id" "id" parseStrJ
    let r2 := reqField fs "label" "label" parseStrJ
    let r3 := optField fs "descriptiveText" "descriptive_text" parseStrJ
    let r4 := reqField fs "type" "type" parseStrJ
    let r5 := optField fs "element" "element" parseStrJ
    let r6 := parseOptionsField fs r4
    let r7 := optField fs "answerOptions" "answer_options" parseStrJ
    let r8 : VRes (Option (List Question)) :=
      match h : lookupAliased fs "children" "children" with
      | none => .ok none
      | some .null => .ok none
      | some (.arr xs) =>
        match withLoc (.key "children") (parseQuestionList 0 xs) with
        | .ok cs => .ok (some cs)
        | .error es => .error es
      | some _ => .error [([Loc.key "children"], "Input should be a valid list")]
    let r9 := optField fs "powerfeature" "powerfeature" parseBoolJ
    let r10 := optField fs "disabled" "disabled" parseBoolJ
    let r11 := optField fs "factSheetElement" "fact_sheet_element" parseFactSheetElement
    let r12 := optField fs "settings" "settings" parseQuestionSettings
    match r1, r2, r3, r4, r5, r6, r7, r8, r9, r10, r11, r12 with
    | .ok a1, .ok a2, .ok a3, .ok a4, .ok a5, .ok a6, .ok a7, .ok a8,
      .ok a9, .ok a10, .ok a11, .ok a12 =>
      -- model validator: `if self.type in [...] and not self.options: raise`
      if (a4 = "singlechoice" || a4 = "multiplechoice") &&
          (match a6 with | none => true | some l => l.isEmpty) then
        .error [([], choiceModelMsg a4)]
      else
        .ok (.mk a1 a2 a3 a4 a5 a6 a7 a8 a9 a10 a11 a12)
    | _, _, _, _, _, _, _, _, _, _, _, _ =>
      .error (errsOf r1 ++ errsOf r2 ++ errsOf r3 ++ errsOf r4 ++ errsOf r5 ++
        errsOf r6 ++ errsOf r7 ++ errsOf r8 ++ errsOf r9 ++ errsOf r10 ++
        errsOf r11 ++ errsOf r12)
  | _ => .error [([], "Input should be a valid dictionary")]
termination_by j => sizeOf j
decreasing_by
  all_goals simp_wf
  have h1 := sizeOf_lookupAliased h
  simp at h1
  omega

/-- Parse a list of questions, locating errors by index and accumulating
errors across the elements. -/
def parseQuestionList (i : Nat) : List Json → VRes (List Question)
  | [] => .ok []
  | j :: rest =>
    match withLoc (.idx i) (parseQuestion j), parseQuestionList (i + 1) rest with
    | .ok a, .ok as => .ok (a :: as)
    | s1, s2 => .error (errsOf s1 ++ errsOf s2)
termination_by js => sizeOf js
decreasing_by
  all_goals simp_wf <;> omega

end

/-! ## Questionnaire, queries and the main survey input model -/

/-- Container for survey questions (`Questionnaire`). -/
structure Questionnaire where
  questions : List Question

def parseQuestionnaire : Json → VRes Questionnaire
  | .obj fs =>
    match findKey fs "questions" with
    | none => .error [([Loc.key "questions"], "Field required")]
    | some (.arr xs) =>
      match withLoc (.key "questions") (parseQuestionList 0 xs) with
      | .ok qs => .ok ⟨qs⟩
      | .error es => .error es
    | some _ => .error [([Loc.key "questions"], "Input should be a valid list")]
  | _ => .error [([], "Input should be a valid dictionary")]

/-- Date-based filtering for fact sheet queries (`DateFilter`). -/
structure DateFilter where
  from_date : Option PyDate
  to_date : Option PyDate
  type : DateFilterType
deriving Repr, DecidableEq

def parseDateFilter : Json → VRes DateFilter
  | .obj fs =>
    let r1 := optField fs "from" "from_date" parseDateJ
    let r2 := optField fs "to" "to_date" parseDateJ
    let r3 := reqField fs "type" "type" parseDateFilterType
    match r1, r2, r3 with
    | .ok a1, .ok a2, .ok a3 => .ok ⟨a1, a2, a3⟩
    | _, _, _ => .error (errsOf r1 ++ errsOf r2 ++ errsOf r3)
  | _ => .error [([], "Input should be a valid dictionary")]

/-- Filter fact sheets by user subscription/role (`SubscriptionFilter`). -/
structure SubscriptionFilter where
  type : SubscriptionType
  role_id : Option String
deriving Repr, DecidableEq

def parseSubscriptionFilter : Json → VRes SubscriptionFilter
  | .obj fs =>
    let r1 := reqField fs "type" "type" parseSubscriptionType
    let r2 := optField fs "roleId" "role_id" parseStrJ
    match r1, r2 with
    | .ok a1, .ok a2 => .ok ⟨a1, a2⟩
    | _, _ => .error (errsOf r1 ++ errsOf r2)
  | _ => .error [([], "Input should be a valid dictionary")]

/-- Flexible filtering for fact sheets (`FacetFilter`); `sub_filter` makes it
recursive. -/
inductive FacetFilter where
  | mk
    (facet_key : Option String)
    (keys : Option (List String))
    (operator : Option FacetFilterOperator)
    (date_filter : Option DateFilter)
    (subscription_filter : Option SubscriptionFilter)
    (sub_filter : Option (List FacetFilter)) : FacetFilter

def FacetFilter.facet_key : FacetFilter → Option String
  | .mk v _ _ _ _ _ => v
def FacetFilter.keys : FacetFilter → Option (List String)
  | .mk _ v _ _ _ _ => v
def FacetFilter.operator : FacetFilter → Option FacetFilterOperator
  | .mk _ _ v _ _ _ => v
def FacetFilter.date_filter : FacetFilter → Option DateFilter
  | .mk _ _ _ v _ _ => v
def FacetFilter.subscription_filter : FacetFilter → Option SubscriptionFilter
  | .mk _ _ _ _ v _ => v
def FacetFilter.sub_filter : FacetFilter → Option (List FacetFilter)
  | .mk _ _ _ _ _ v => v

mutual

def parseFacetFilter : Json → VRes FacetFilter
  | .obj fs =>
    let r1 := optField fs "facetKey" "facet_key" parseStrJ
    let r2 := optField fs "keys" "keys" (parseArrWith parseStrJ)
    let r3 := optField fs "operator" "operator" parseFacetFilterOperator
    let r4 := optField fs "dateFilter" "date_filter" parseDateFilter
    let r5 := optField fs "subscriptionFilter" "subscription_filter" parseSubscriptionFilter
    let r6 : VRes (Option (List FacetFilter)) :=
      match h : lookupAliasedKey fs "subFilter" "sub_filter" with
      | none => .ok none
      | some (_, .null) => .ok none
      | some (k, .arr xs) =>
        match withLoc (.key k) (parseFacetFilterList 0 xs) with
        | .ok sf => .ok (some sf)
        | .error es => .error es
      | some (k, _) => .error [([Loc.key k], "Input should be a valid list")]
    match r1, r2, r3, r4, r5, r6 with
    | .ok a1, .ok a2, .ok a3, .ok a4, .ok a5, .ok a6 => .ok (.mk a1 a2 a3 a4 a5 a6)
    | _, _, _, _, _, _ =>
      .error (errsOf r1 ++ errsOf r2 ++ errsOf r3 ++ errsOf r4 ++ errsOf r5 ++ errsOf r6)
  | _ => .error [([], "Input should be a valid dictionary")]
termination_by j => sizeOf j
decreasing_by
  all_goals simp_wf
  have h1 := sizeOf_lookupAliasedKey h
  simp at h1
  omega

def parseFacetFilterList (i : Nat) : List Json → VRes (List FacetFilter)
  | [] => .ok []
  | j :: rest =>
    match withLoc (.idx i) (parseFacetFilter j), parseFacetFilterList (i + 1) rest with
    | .ok a, .ok as => .ok (a :: as)
    | s1, s2 => .error (errsOf s1 ++ errsOf s2)
termination_by js => sizeOf js
decreasing_by
  all_goals simp_wf <;> omega

end

/-- Filter configuration for fact sheet queries (`QueryFilter`). -/
structure QueryFilter where
  fs_type : Option String
  facet_filter : Option (List FacetFilter)
  full_text_search_term : Option String

def parseQueryFilter : Json → VRes QueryFilter
  | .obj fs =>
    let r1 := optField fs "fsType" "fs_type" parseStrJ
    let r2 : VRes (Option (List FacetFilter)) :=
      match lookupAliasedKey fs "facetFilter" "facet_filter" with
      | none => .ok none
      | some (_, .null) => .ok none
      | some (k, .arr xs) =>
        match withLoc (.key k) (parseFacetFilterList 0 xs) with
        | .ok ff => .ok (some ff)
        | .error es => .error es
      | some (k, _) => .error [([Loc.key k], "Input should be a valid list")]
    let r3 := optField fs "fullTextSearchTerm" "full_text_search_term" parseStrJ
    match r1, r2, r3 with
    | .ok a1, .ok a2, .ok a3 => .ok ⟨a1, a2, a3⟩
    | _, _, _ => .error (errsOf r1 ++ errsOf r2 ++ errsOf r3)
  | _ => .error [([], "Input should be a valid dictionary")]

/-- Query definition for selecting fact sheets (`FactSheetQuery`, no aliases,
no `populate_by_name`). -/
structure FactSheetQuery where
  filter : Option QueryFilter
  ids : Option (List String)

def parseFactSheetQuery : Json → VRes FactSheetQuery
  | .obj fs =>
    let r1 := optField fs "filter" "filter" parseQueryFilter
    let r2 := optField fs "ids" "ids" (parseArrWith parseStrJ)
    match r1, r2 with
    | .ok a1, .ok a2 => .ok ⟨a1, a2⟩
    | _, _ => .error (errsOf r1 ++ errsOf r2)
  | _ => .error [([], "Input should be a valid dictionary")]

/-- Details about a specific user role (`UserRoleDetails`). -/
structure UserRoleDetails where
  name : String
  id : String
deriving Repr, DecidableEq

def parseUserRoleDetails : Json → VRes UserRoleDetails
  | .obj fs =>
    let r1 := reqField fs "name" "name" parseStrJ
    let r2 := reqField fs "id" "id" parseStrJ
    match r1, r2 with
    | .ok a1, .ok a2 => .ok ⟨a1, a2⟩
    | _, _ => .error (errsOf r1 ++ errsOf r2)
  | _ => .error [([], "Input should be a valid dictionary")]

/-- User role configuration (`UserRole`). -/
structure UserRole where
  subscription_type : SubscriptionType
  role_details : Option (List UserRoleDetails)
deriving Repr, DecidableEq

def parseUserRole : Json → VRes UserRole
  | .obj fs =>
    let r1 := reqField fs "subscriptionType" "subscription_type" parseSubscriptionType
    let r2 := optField fs "roleDetails" "role_details" (parseArrWith parseUserRoleDetails)
    match r1, r2 with
    | .ok a1, .ok a2 => .ok ⟨a1, a2⟩
    | _, _ => .error (errsOf r1 ++ errsOf r2)
  | _ => .error [([], "Input should be a valid dictionary")]

/-- Query definition for selecting survey recipients (`UserQuery`). -/
structure UserQuery where
  roles : List UserRole
deriving Repr, DecidableEq

def parseUserQuery : Json → VRes UserQuery
  | .obj fs =>
    match reqField fs "roles" "roles" (parseArrWith parseUserRole) with
    | .ok rs => .ok ⟨rs⟩
    | .error es => .error es
  | _ => .error [([], "Input should be a valid dictionary")]

/-- The `title` field of `SurveyInput`: `str` with `min_length=1` (checked
before validators), then the `validate_title` field validator, which rejects
whitespace-only titles and stores the stripped value. -/
def parseTitle : Json → VRes String
  | .str s =>
    if s.length < 1 then .error [([], "String should have at least 1 character")]
    else if pyStrip s = "" then
      .error [([], "Value error, Title cannot be empty or whitespace only")]
    else .ok (pyStrip s)
  | _ => .error [([], "Input should be a valid string")]

/-- Main input model for creating a LeanIX survey (`SurveyInput`,
`populate_by_name = True`, extra fields ignored). -/
structure SurveyInput where
  title : String
  questionnaire : Questionnaire
  introduction_text : Option String
  introduction_subject : Option String
  additional_fact_sheet_subject : Option String
  additional_fact_sheet_text : Option String
  additional_fact_sheet_check_enabled : Option Bool
  repeat_interval : Option Int
  time_frame : Option Int
  send_change_notifications : Option Bool
  allowed_permission_status : Option AllowedPermissionStatus
  dynamic_scope_check_enabled : Option Bool
  fact_sheet_query : Option FactSheetQuery
  user_query : Option UserQuery

/-- `SurveyInput.model_validate`: parse and validate a whole survey document. -/
def parseSurveyInput : Json → VRes SurveyInput
  | .obj fs =>
    let r1 := reqField fs "title" "title" parseTitle
    let r2 := reqField fs "questionnaire" "questionnaire" parseQuestionnaire
    let r3 := optField fs "introductionText" "introduction_text" parseStrJ
    let r4 := optField fs "introductionSubject" "introduction_subject" parseStrJ
    let r5 := optField fs "additionalFactSheetSubject" "additional_fact_sheet_subject" parseStrJ
    let r6 := optField fs "additionalFactSheetText" "additional_fact_sheet_text" parseStrJ
    let r7 := optField fs "additionalFactSheetCheckEnabled" "additional_fact_sheet_check_enabled"
      parseBoolJ
    let r8 := optField fs "repeatInterval" "repeat_interval" parseIntJ
    let r9 := optField fs "timeFrame" "time_frame" parseIntJ
    let r10 := optField fs "sendChangeNotifications" "send_change_notifications" parseBoolJ
    let r11 := optField fs "allowedPermissionStatus" "allowed_permission_status"
      parseAllowedPermissionStatus
    let r12 := optField fs "dynamicScopeCheckEnabled" "dynamic_scope_check_enabled" parseBoolJ
    let r13 := optField fs "factSheetQuery" "fact_sheet_query" parseFactSheetQuery
    let r14 := optField fs "userQuery" "user_query" parseUserQuery
    match r1, r2, r3, r4, r5, r6, r7, r8, r9, r10, r11, r12, r13, r14 with
    | .ok a1, .ok a2, .ok a3, .ok a4, .ok a5, .ok a6, .ok a7, .ok a8,
      .ok a9, .ok a10, .ok a11, .ok a12, .ok a13, .ok a14 =>
      .ok ⟨a1, a2, a3, a4, a5, a6, a7, a8, a9, a10, a11, a12, a13, a14⟩
    | _, _, _, _, _, _, _, _, _, _, _, _, _, _ =>
      .error (errsOf r1 ++ errsOf r2 ++ errsOf r3 ++ errsOf r4 ++ errsOf r5 ++
        errsOf r6 ++ errsOf r7 ++ errsOf r8 ++ errsOf r9 ++ errsOf r10 ++
        errsOf r11 ++ errsOf r12 ++ errsOf r13 ++ errsOf r14)
  | _ => .error [([], "Input should be a valid dictionary")]

/-! ## PollCreate and the wire-payload assembler -/

/-- Complete poll creation request (`PollCreate`), fields in declaration
order. -/
structure PollCreate where
  title : String
  language : String
  fact_sheet_type : String
  questionnaire : Questionnaire
  due_date : Option PyDate
  introduction_text : Option String
  introduction_subject : Option String
  additional_fact_sheet_subject : Option String
  additional_fact_sheet_text : Option String
  additional_fact_sheet_check_enabled : Option Bool
  repeat_interval : Option Int
  time_frame : Option Int
  send_change_notifications : Option Bool
  allowed_permission_status : Option AllowedPermissionStatus
  dynamic_scope_check_enabled : Option Bool
  fact_sheet_query : Option FactSheetQuery
  user_query : Option UserQuery

/-- `PollCreate.from_survey_input`: merge a validated `SurveyInput` with
UI-collected data. Every `SurveyInput` field is copied unchanged (subtrees
are shared, not copied); `language`, `fact_sheet_type` and `due_date` are the
three new fields. -/
def PollCreate.from_survey_input (survey_input : SurveyInput) (language : String)
    (fact_sheet_type : String) (due_date : Option PyDate := none) : PollCreate :=
  { title := survey_input.title
    language := language
    fact_sheet_type := fact_sheet_type
    questionnaire := survey_input.questionnaire
    due_date := due_date
    introduction_text := survey_input.introduction_text
    introduction_subject := survey_input.introduction_subject
    additional_fact_sheet_subject := survey_input.additional_fact_sheet_subject
    additional_fact_sheet_text := survey_input.additional_fact_sheet_text
    additional_fact_sheet_check_enabled := survey_input.additional_fact_sheet_check_enabled
    repeat_interval := survey_input.repeat_interval
    time_frame := survey_input.time_frame
    send_change_notifications := survey_input.send_change_notifications
    allowed_permission_status := survey_input.allowed_permission_status
    dynamic_scope_check_enabled := survey_input.dynamic_scope_check_enabled
    fact_sheet_query := survey_input.fact_sheet_query
    user_query := survey_input.user_query }

/-! ## Wire serialization

`LeanIXClient.create_poll` builds the payload with
`poll_data.model_dump(by_alias=True, exclude_none=True)`: every field is
emitted under its alias (wire name) when it has one, fields whose value is
`None` are omitted entirely, and the dump recurses into nested models and
lists. Opaque `dict[str, Any]` values pass through unchanged. Dates are
modelled at their ISO wire rendering. -/

/-- Emit an optional model field: omitted entirely when `None`
(`exclude_none=True`). -/
def optEntry (name : String) (o : Option α) (f : α → Json) : List (String × Json) :=
  match o with
  | none => []
  | some v => [(name, f v)]

def dumpQuestionOption (o : QuestionOption) : Json :=
  .obj ([("id", .str o.id), ("label", .str o.label)] ++ optEntry "comment" o.comment Json.str)

def dumpElementProperty (p : ElementProperty) : Json :=
  .obj [("name", .str p.name)]

def dumpFactSheetElement (e : FactSheetElement) : Json :=
  .obj (optEntry "type" e.type Json.str ++
    optEntry "tagGroupId" e.tag_group_id Json.str ++
    optEntry "subscription" e.subscription Json.obj ++
    optEntry "factSheetFieldName" e.fact_sheet_field_name Json.str ++
    optEntry "factSheetFieldType" e.fact_sheet_field_type Json.str ++
    optEntry "tagGroupMode" e.tag_group_mode Json.str ++
    optEntry "factSheetFieldViewType" e.fact_sheet_field_view_type Json.str ++
    optEntry "properties" e.properties (fun ps => .arr (ps.map dumpElementProperty)))

def dumpDependencySettings (d : DependencySettings) : Json :=
  .obj [("parentId", .str d.parent_id), ("condition", .obj d.condition)]

def dumpQuestionSettings (s : QuestionSettings) : Json :=
  .obj (optEntry "metrics" s.metrics (fun m => .obj (m.map (fun kv => (kv.1, .str kv.2)))) ++
    optEntry "version" s.version Json.num ++
    optEntry "hideInResults" s.hide_in_results Json.bool ++
    optEntry "isConditional" s.is_conditional Json.bool ++
    optEntry "fsSections" s.fs_sections Json.obj ++
    optEntry "formula" s.formula Json.str ++
    optEntry "dependency" s.dependency dumpDependencySettings ++
    optEntry "isMandatory" s.is_mandatory Json.bool)

mutual

/-- Dump of one question: present fields under their wire names, in field
declaration order; `options` and `children` serialize preserving list order. -/
def dumpQuestionFields (q : Question) : List (String × Json) :=
  match q with
  | .mk i l desc ty elem opts ans children power dis fse settings =>
    [("id", .str i), ("label", .str l)] ++
    optEntry "descriptiveText" desc Json.str ++
    [("type", .str ty)] ++
    optEntry "element" elem Json.str ++
    (match opts with
     | none => []
     | some os => [("options", .arr (os.map dumpQuestionOption))]) ++
    optEntry "answerOptions" ans Json.str ++
    (match children with
     | none => []
     | some cs => [("children", .arr (dumpQuestionList cs))]) ++
    optEntry "powerfeature" power Json.bool ++
    optEntry "disabled" dis Json.bool ++
    optEntry "factSheetElement" fse dumpFactSheetElement ++
    optEntry "settings" settings dumpQuestionSettings

def dumpQuestionList : List Question → List Json
  | [] => []
  | q :: rest => .obj (dumpQuestionFields q) :: dumpQuestionList rest

end

def dumpQuestion (q : Question) : Json := .obj (dumpQuestionFields q)

def dumpQuestionnaire (qn : Questionnaire) : Json :=
  .obj [("questions", .arr (qn.questions.map dumpQuestion))]

def dumpDateFilter (d : DateFilter) : Json :=
  .obj (optEntry "from" d.from_date (fun x => .str (dateToISO x)) ++
    optEntry "to" d.to_date (fun x => .str (dateToISO x)) ++
    [("type", .str d.type.toWire)])

def dumpSubscriptionFilter (s : SubscriptionFilter) : Json :=
  .obj ([("type", .str s.type.toWire)] ++ optEntry "roleId" s.role_id Json.str)

mutual

def dumpFacetFilterFields (f : FacetFilter) : List (String × Json) :=
  match f with
  | .mk fk keys op df sf sub =>
    optEntry "facetKey" fk Json.str ++
    optEntry "keys" keys (fun ks => .arr (ks.map Json.str)) ++
    optEntry "operator" op (fun o => .str o.toWire) ++
    optEntry "dateFilter" df dumpDateFilter ++
    optEntry "subscriptionFilter" sf dumpSubscriptionFilter ++
    (match sub with
     | none => []
     | some gs => [("subFilter", .arr (dumpFacetFilterList gs))])

def dumpFacetFilterList : List FacetFilter → List Json
  | [] => []
  | f :: rest => .obj (dumpFacetFilterFields f) :: dumpFacetFilterList rest

end

def dumpFacetFilter (f : FacetFilter) : Json := .obj (dumpFacetFilterFields f)

def dumpQueryFilter (qf : QueryFilter) : Json :=
  .obj (optEntry "fsType" qf.fs_type Json.str ++
    (match qf.facet_filter with
     | none => []
     | some ffs => [("facetFilter", .arr (dumpFacetFilterList ffs))]) ++
    optEntry "fullTextSearchTerm" qf.full_text_search_term Json.str)

def dumpFactSheetQuery (q : FactSheetQuery) : Json :=
  .obj (optEntry "filter" q.filter dumpQueryFilter ++
    optEntry "ids" q.ids (fun ids => .arr (ids.map Json.str)))

def dumpUserRoleDetails (d : UserRoleDetails) : Json :=
  .obj [("name", .str d.name), ("id", .str d.id)]

def dumpUserRole (r : UserRole) : Json :=
  .obj ([("subscriptionType", .str r.subscription_type.toWire)] ++
    optEntry "roleDetails" r.role_details (fun ds => .arr (ds.map dumpUserRoleDetails)))

def dumpUserQuery (q : UserQuery) : Json :=
  .obj [("roles", .arr (q.roles.map dumpUserRole))]

/-- `poll_data.model_dump(by_alias=True, exclude_none=True)` as used by
`LeanIXClient.create_poll`: the wire payload's top-level key/value pairs, in
field declaration order. -/
def dumpPollCreate (pc : PollCreate) : List (String × Json) :=
  [("title", .str pc.title), ("language", .str pc.language),
   ("factSheetType", .str pc.fact_sheet_type),
   ("questionnaire", dumpQuestionnaire pc.questionnaire)] ++
  optEntry "dueDate" pc.due_date (fun d => .str (dateToISO d)) ++
  optEntry "introductionText" pc.introduction_text Json.str ++
  optEntry "introductionSubject" pc.introduction_subject Json.str ++
  optEntry "additionalFactSheetSubject" pc.additional_fact_sheet_subject Json.str ++
  optEntry "additionalFactSheetText" pc.additional_fact_sheet_text Json.str ++
  optEntry "additionalFactSheetCheckEnabled" pc.additional_fact_sheet_check_enabled Json.bool ++
  optEntry "repeatInterval" pc.repeat_interval Json.num ++
  optEntry "timeFrame" pc.time_frame Json.num ++
  optEntry "sendChangeNotifications" pc.send_change_notifications Json.bool ++
  optEntry "allowedPermissionStatus" pc.allowed_permission_status
    (fun s => .str s.toWire) ++
  optEntry "dynamicScopeCheckEnabled" pc.dynamic_scope_check_enabled Json.bool ++
  optEntry "factSheetQuery" pc.fact_sheet_query dumpFactSheetQuery ++
  optEntry "userQuery" pc.user_query dumpUserQuery

/-! ## `validate_survey.validate_json_string` -/

/-- Render one pydantic error location as
`" -> ".join(str(loc) for loc in error["loc"])`. -/
def renderLoc : List Loc → String
  | [] => ""
  | [Loc.key k] => k
  | [Loc.idx i] => toString i
  | Loc.key k :: rest => k ++ " -> " ++ renderLoc rest
  | Loc.idx i :: rest => toString i ++ " -> " ++ renderLoc rest

/-- One line of the flattened error message:
`f"  • {location}: {error['msg']}\n"`. -/
def renderErrLine (e : ValErr) : String :=
  "  • " ++ renderLoc e.1 ++ ": " ++ e.2 ++ "\n"

/-- `validate_json_string(json_string)`: parse with `json.loads` (passed in as
`loads`, modelling the standard-library JSON parser), then validate with
`SurveyInput.model_validate`, converting every recognized failure into a
`(is_valid, survey_input, error_message)` triple; on a `ValidationError` the
ordered error list is flattened into a single display string, one line per
violation. (The defensive `except Exception` branch for unanticipated
failures has no counterpart in this total model.) -/
def validate_json_string (loads : String → Except String Json) (json_string : String) :
    Bool × Option SurveyInput × String :=
  match loads json_string with
  | .error e => (false, none, "Invalid JSON: " ++ e)
  | .ok data =>
    match parseSurveyInput data with
    | .ok survey_input => (true, some survey_input, "")
    | .error es =>
      (false, none, "Validation errors:\n" ++ String.join (es.map renderErrLine))

/-! ## API layer (`api.py`)

The HTTP transport, configuration URL parsing and the external LeanIX service
are collaborators outside the core: configuration validity enters as the
boolean outcome of `config.validate_config()` and poll submission as a
`submit` function returning either an `HTTPException` or the response JSON.
-/

/-- `fastapi.HTTPException`, as raised/caught by the endpoints. -/
structure HTTPException where
  status_code : Nat
  detail : String
deriving Repr, DecidableEq

/-- `SurveyCreateRequest`: one survey creation item. -/
structure SurveyCreateRequest where
  survey_input : SurveyInput
  language : String
  fact_sheet_type : String
  due_date : Option PyDate

/-- `SurveyCreateResponse`. -/
structure SurveyCreateResponse where
  success : Bool
  poll_id : Option String
  message : String
  errors : Option (List String)

/-- `BatchSurveyItemResult`. -/
structure BatchSurveyItemResult where
  index : Nat
  success : Bool
  poll_id : Option String
  message : String
  errors : Option (List String)

/-- `BatchSurveyCreateResponse`. -/
structure BatchSurveyCreateResponse where
  success : Bool
  succeeded : Nat
  failed : Nat
  results : List BatchSurveyItemResult
  message : String

/-- Keyword parameters accepted by the signature of
`PollCreate.from_survey_input` (besides `cls`). -/
def fromSurveyInputParams : List String :=
  ["survey_input", "language", "fact_sheet_type", "due_date"]

/-- Keyword arguments passed at the call sites in `api.py`'s `create_survey`
and `create_survey_batch`. -/
def createSurveyCallKwargs : List String :=
  ["survey_input", "language", "fact_sheet_type", "due_date", "transform_ids_to_uuid"]

/-- Python call semantics for the `PollCreate.from_survey_input(...)`
invocation in `api.py`: a keyword argument not accepted by the signature
raises `TypeError` before the function body runs. -/
def callFromSurveyInput (req : SurveyCreateRequest) : Except String PollCreate :=
  match createSurveyCallKwargs.filter (fun k => !fromSurveyInputParams.contains k) with
  | [] =>
    .ok (PollCreate.from_survey_input req.survey_input req.language req.fact_sheet_type
      req.due_date)
  | bad :: _ =>
    .error ("PollCreate.from_survey_input() got an unexpected keyword argument \x27" ++
      bad ++ "\x27")

/-- Extract the poll id from a LeanIX response:
`if response.get("status") == "OK" and response.get("data"):
poll_id = response["data"].get("id")` (Python truthiness: an empty or missing
`data` dict is falsy). -/
def extractPollId (response : Json) : Option String :=
  match response with
  | .obj fs =>
    match findKey fs "status", findKey fs "data" with
    | some (.str "OK"), some (.obj d) =>
      if d.isEmpty then none
      else
        match findKey d "id" with
        | some (.str i) => some i
        | _ => none
    | _, _ => none
  | _ => none

/-- The `/api/surveys/create` endpoint (`create_survey`). `configValid` is the
outcome of `config.validate_config()`; `submit` is
`LeanIXClient.create_poll`. An `HTTPException` propagates (`.error`); any
other exception is converted by the generic handler into a
`success=False` response. -/
def create_survey (configValid : Bool)
    (submit : PollCreate → Except HTTPException Json)
    (create_request : SurveyCreateRequest) :
    Except HTTPException SurveyCreateResponse :=
  if !configValid then
    .error ⟨422, "Invalid configuration"⟩
  else
    match callFromSurveyInput create_request with
    | .error e =>
      .ok ⟨false, none, "Failed to create survey: " ++ e, some [e]⟩
    | .ok poll_data =>
      match submit poll_data with
      | .error he => .error he
      | .ok response =>
        .ok ⟨true, extractPollId response, "Survey created successfully in LeanIX", none⟩

/-- Default of the `MAX_BATCH_SIZE` environment variable in `api.py`. -/
def MAX_BATCH_SIZE_DEFAULT : Nat := 25

/-- The per-item body of the `create_survey_batch` loop: build the poll data
(the call raises `TypeError`, caught by the defensive `except Exception`
branch), otherwise submit (`HTTPException` caught by the first branch).
Returns the item result and whether the item failed. -/
def batchProcessItem (submit : PollCreate → Except HTTPException Json)
    (index : Nat) (create_request : SurveyCreateRequest) :
    BatchSurveyItemResult × Bool :=
  match callFromSurveyInput create_request with
  | .error e =>
    (⟨index, false, none, "Unexpected error during survey creation", some [e]⟩, true)
  | .ok poll_data =>
    match submit poll_data with
    | .error he =>
      (⟨index, false, none, "Failed to create survey", some [he.detail]⟩, true)
    | .ok response =>
      (⟨index, true, extractPollId response, "Survey created successfully", none⟩, false)

/-- The sequential batch loop with optional fail-fast: process items in order,
stopping after the first failed item when `fail_fast` is set. -/
def batchLoop (submit : PollCreate → Except HTTPException Json) (fail_fast : Bool)
    (index : Nat) : List SurveyCreateRequest → List BatchSurveyItemResult
  | [] => []
  | req :: rest =>
    match batchProcessItem submit index req with
    | (r, true) => if fail_fast then [r] else r :: batchLoop submit fail_fast (index + 1) rest
    | (r, false) => r :: batchLoop submit fail_fast (index + 1) rest

/-- The `/api/surveys/create-batch` endpoint (`create_survey_batch`): reject
an empty batch with 400 and an oversized batch with 422 before validating the
configuration or touching any item; then run the sequential loop and
summarize. -/
def create_survey_batch (maxBatchSize : Nat) (configValid : Bool)
    (submit : PollCreate → Except HTTPException Json)
    (requests : List SurveyCreateRequest) (fail_fast : Bool) :
    Except HTTPException BatchSurveyCreateResponse :=
  if requests.isEmpty then
    .error ⟨400, "Batch requests cannot be empty"⟩
  else if maxBatchSize < requests.length then
    .error ⟨422, "Batch size exceeds maximum of " ++ toString maxBatchSize⟩
  else if !configValid then
    .error ⟨422, "Invalid configuration"⟩
  else
    let results := batchLoop submit fail_fast 0 requests
    let succeeded := (results.filter (fun r => r.success)).length
    let failed := (results.filter (fun r => !r.success)).length
    .ok { success := failed = 0
          succeeded := succeeded
          failed := failed
          results := results
          message := "Batch completed: " ++ toString succeeded ++ " succeeded, " ++
            toString failed ++ " failed" }

/-! ## Shared helper lemmas -/

theorem isErr_ne_ok {r : VRes α} (h : isErr r = true) (a : α) : r ≠ .ok a := by
  cases r with
  | ok b => simp [isErr] at h
  | error es => intro hc; cases hc

/-- The `str(TypeError)` message produced by the bad keyword argument at the
`from_survey_input` call sites in `api.py`. -/
def transformKwargMsg : String :=
  "PollCreate.from_survey_input() got an unexpected keyword argument \x27transform_ids_to_uuid\x27"

theorem callFromSurveyInput_raises (req : SurveyCreateRequest) :
    callFromSurveyInput req = .error transformKwargMsg := rfl

/-! ## Claims -/

/-- **C3**: `PollCreate.from_survey_input` copies every `SurveyInput` field
unchanged into the corresponding `PollCreate` field and adds exactly the three
UI-collected fields `language`, `factSheetType` and `dueDate`; it is a pure
function of its four arguments. -/
theorem c3_from_survey_input_passthrough :
    ∀ (si : SurveyInput) (language fact_sheet_type : String) (due_date : Option PyDate),
      (PollCreate.from_survey_input si language fact_sheet_type due_date).title = si.title ∧
      (PollCreate.from_survey_input si language fact_sheet_type due_date).questionnaire =
        si.questionnaire ∧
      (PollCreate.from_survey_input si language fact_sheet_type due_date).introduction_text =
        si.introduction_text ∧
      (PollCreate.from_survey_input si language fact_sheet_type due_date).introduction_subject =
        si.introduction_subject ∧
      (PollCreate.from_survey_input si language fact_sheet_type
        due_date).additional_fact_sheet_subject = si.additional_fact_sheet_subject ∧
      (PollCreate.from_survey_input si language fact_sheet_type
        due_date).additional_fact_sheet_text = si.additional_fact_sheet_text ∧
      (PollCreate.from_survey_input si language fact_sheet_type
        due_date).additional_fact_sheet_check_enabled =
        si.additional_fact_sheet_check_enabled ∧
      (PollCreate.from_survey_input si language fact_sheet_type due_date).repeat_interval =
        si.repeat_interval ∧
      (PollCreate.from_survey_input si language fact_sheet_type due_date).time_frame =
        si.time_frame ∧
      (PollCreate.from_survey_input si language fact_sheet_type
        due_date).send_change_notifications = si.send_change_notifications ∧
      (PollCreate.from_survey_input si language fact_sheet_type
        due_date).allowed_permission_status = si.allowed_permission_status ∧
      (PollCreate.from_survey_input si language fact_sheet_type
        due_date).dynamic_scope_check_enabled = si.dynamic_scope_check_enabled ∧
      (PollCreate.from_survey_input si language fact_sheet_type due_date).fact_sheet_query =
        si.fact_sheet_query ∧
      (PollCreate.from_survey_input si language fact_sheet_type due_date).user_query =
        si.user_query ∧
      (PollCreate.from_survey_input si language fact_sheet_type due_date).language = language ∧
      (PollCreate.from_survey_input si language fact_sheet_type due_date).fact_sheet_type =
        fact_sheet_type ∧
      (PollCreate.from_survey_input si language fact_sheet_type due_date).due_date = due_date :=
  fun _ _ _ _ =>
    ⟨rfl, rfl, rfl, rfl, rfl, rfl, rfl, rfl, rfl, rfl, rfl, rfl, rfl, rfl, rfl, rfl, rfl⟩

/-- **C8**: with a valid configuration, `create_survey` always reaches the
`TypeError` from the unexpected `transform_ids_to_uuid` keyword argument; the
generic exception handler turns it into a `success=False` response, the poll
is never submitted (the result does not depend on the submission collaborator
at all), and no `create_survey` result can ever have `success=True`. -/
theorem c8_create_survey_never_succeeds :
    ∀ (submit : PollCreate → Except HTTPException Json) (req : SurveyCreateRequest),
      create_survey true submit req =
        .ok ⟨false, none, "Failed to create survey: " ++ transformKwargMsg,
          some [transformKwargMsg]⟩ ∧
      (∀ submit2, create_survey true submit req = create_survey true submit2 req) ∧
      (∀ (configValid : Bool) (r : SurveyCreateResponse),
        create_survey configValid submit req = .ok r → r.success = false) := by
  intro submit req
  refine ⟨rfl, fun submit2 => rfl, ?_⟩
  intro configValid r h
  cases configValid with
  | false => simp [create_survey] at h
  | true =>
    simp [create_survey, callFromSurveyInput, createSurveyCallKwargs,
      fromSurveyInputParams] at h
    rw [← h]

/-- A syntactically valid survey input used to exercise the endpoints. -/
def sampleSurveyInput : SurveyInput :=
  { title := "Test Survey"
    questionnaire := ⟨[.mk "q1" "Test Question" none "text" none none none none
      none none none none]⟩
    introduction_text := none
    introduction_subject := none
    additional_fact_sheet_subject := none
    additional_fact_sheet_text := none
    additional_fact_sheet_check_enabled := none
    repeat_interval := none
    time_frame := none
    send_change_notifications := none
    allowed_permission_status := none
    dynamic_scope_check_enabled := none
    fact_sheet_query := none
    user_query := none }

def sampleCreateRequest : SurveyCreateRequest :=
  ⟨sampleSurveyInput, "en", "Application", none⟩

/-- A submission collaborator that always reports a successful creation. -/
def submitAlwaysOk : PollCreate → Except HTTPException Json :=
  fun _ => .ok (.obj [("status", .str "OK"), ("data", .obj [("id", .str "poll-1")])])

/-- Witness for C8 at a concrete request and submission collaborator. -/
theorem c8_create_survey_never_succeeds_witness :
    create_survey true submitAlwaysOk sampleCreateRequest =
      .ok ⟨false, none, "Failed to create survey: " ++ transformKwargMsg,
        some [transformKwargMsg]⟩ ∧
    (⟨false, none, "Failed to create survey: " ++ transformKwargMsg,
        some [transformKwargMsg]⟩ : SurveyCreateResponse).success = false :=
  ⟨(c8_create_survey_never_succeeds submitAlwaysOk sampleCreateRequest).1,
   (c8_create_survey_never_succeeds submitAlwaysOk sampleCreateRequest).2.2 true _
     (c8_create_survey_never_succeeds submitAlwaysOk sampleCreateRequest).1⟩

/-- **C10**: `create_survey_batch` checks the size bounds before validating
the configuration or touching any item: an empty request list yields HTTP
400, a list longer than the maximum yields HTTP 422; in both cases the result
is the bare error (no per-item results) and is independent of the submission
collaborator; the `MAX_BATCH_SIZE` default is 25. -/
theorem c10_batch_size_guards :
    ∀ (maxBatchSize : Nat) (configValid : Bool)
      (submit : PollCreate → Except HTTPException Json)
      (requests : List SurveyCreateRequest) (fail_fast : Bool),
      (requests = [] →
        create_survey_batch maxBatchSize configValid submit requests fail_fast =
          .error ⟨400, "Batch requests cannot be empty"⟩) ∧
      (requests.length > maxBatchSize →
        create_survey_batch maxBatchSize configValid submit requests fail_fast =
          .error ⟨422, "Batch size exceeds maximum of " ++ toString maxBatchSize⟩) ∧
      MAX_BATCH_SIZE_DEFAULT = 25 := by
  intro maxBatchSize configValid submit requests fail_fast
  refine ⟨?_, ?_, rfl⟩
  · intro h
    subst h
    rfl
  · intro h
    have hne : requests.isEmpty = false := by
      cases requests with
      | nil => simp at h
      | cons a as => rfl
    simp [create_survey_batch, hne]
    omega

/-- Witness for C10: the empty batch and a 26-item batch at the default
maximum of 25. -/
theorem c10_batch_size_guards_witness :
    create_survey_batch 25 true submitAlwaysOk [] false =
      .error ⟨400, "Batch requests cannot be empty"⟩ ∧
    create_survey_batch 25 true submitAlwaysOk
      (List.replicate 26 sampleCreateRequest) false =
      .error ⟨422, "Batch size exceeds maximum of 25"⟩ :=
  ⟨(c10_batch_size_guards 25 true submitAlwaysOk [] false).1 rfl,
   (c10_batch_size_guards 25 true submitAlwaysOk
      (List.replicate 26 sampleCreateRequest) false).2.1 (by simp)⟩

/-- **C5** (code evaluation at the failing input): a batch of 3 valid items
with `fail_fast=false` and a submission collaborator that would succeed for
every item still produces `succeeded=0, failed=3` — every item dies in
payload assembly on the `transform_ids_to_uuid` `TypeError` before any
submission; with `fail_fast=true` the loop stops after the first item. -/
theorem c5_batch_every_item_fails :
    create_survey_batch 25 true submitAlwaysOk
      [sampleCreateRequest, sampleCreateRequest, sampleCreateRequest] false =
      .ok { success := false, succeeded := 0, failed := 3
            results :=
              [⟨0, false, none, "Unexpected error during survey creation",
                some [transformKwargMsg]⟩,
               ⟨1, false, none, "Unexpected error during survey creation",
                some [transformKwargMsg]⟩,
               ⟨2, false, none, "Unexpected error during survey creation",
                some [transformKwargMsg]⟩]
            message := "Batch completed: 0 succeeded, 3 failed" } ∧
    create_survey_batch 25 true submitAlwaysOk
      [sampleCreateRequest, sampleCreateRequest, sampleCreateRequest] true =
      .ok { success := false, succeeded := 0, failed := 1
            results :=
              [⟨0, false, none, "Unexpected error during survey creation",
                some [transformKwargMsg]⟩]
            message := "Batch completed: 0 succeeded, 1 failed" } := by
  constructor <;> rfl

/-- A survey document whose title is `s`, with one valid free-text question. -/
def titleDoc (s : String) : Json :=
  .obj [("title", .str s),
    ("questionnaire", .obj [("questions", .arr
      [.obj [("id", .str "q1"), ("label", .str "L"), ("type", .str "text")]])])]

/-- The validated document `titleDoc` produces, with stored title `t`. -/
def titleDocParsed (t : String) : SurveyInput :=
  ⟨t, ⟨[.mk "q1" "L" none "text" none none none none none none none none]⟩,
    none, none, none, none, none, none, none, none, none, none, none, none⟩

theorem parseSurveyInput_isErr_of_title {fs : List (String × Json)}
    (h : isErr (reqField fs "title" "title" parseTitle) = true) :
    isErr (parseSurveyInput (.obj fs)) = true := by
  simp only [parseSurveyInput]
  rcases hr1 : reqField fs "title" "title" parseTitle with es | a
  · rfl
  · rw [hr1] at h; simp [isErr] at h

/-- **C2**: any document whose `title` value is a string that is empty or
whitespace-only fails `SurveyInput` validation (whatever the other fields
contain), and a title with surrounding whitespace around non-empty content
validates with the trimmed value stored in the validated document. -/
theorem c2_title_validation :
    (∀ (fs : List (String × Json)) (s : String),
      findKey fs "title" = some (.str s) → pyStrip s = "" →
      isErr (parseSurveyInput (.obj fs)) = true) ∧
    (∀ s : String, pyStrip s ≠ "" →
      parseSurveyInput (titleDoc s) = .ok (titleDocParsed (pyStrip s))) := by
  constructor
  · intro fs s hf hs
    apply parseSurveyInput_isErr_of_title
    by_cases hl : s.length < 1
    · simp [reqField, lookupAliased, lookupAliasedKey, Json.isNull, hf, parseTitle, hl, withLoc, isErr]
    · simp [reqField, lookupAliased, lookupAliasedKey, Json.isNull, hf, parseTitle, hl, hs, withLoc, isErr]
  · intro s hs
    have hne : s ≠ "" := fun he => hs (by rw [he]; rfl)
    have hl : ¬ s.length < 1 := by
      intro hlt
      apply hne
      have h0 : s.length = 0 := Nat.lt_one_iff.mp hlt
      cases s with
      | mk data =>
        cases data with
        | nil => rfl
        | cons c cs => simp [String.length] at h0
    simp [titleDoc, titleDocParsed, parseSurveyInput, reqField, optField, lookupAliased, lookupAliasedKey, Json.isNull,
      findKey, withLoc, parseTitle, hl, hs, parseQuestionnaire, parseQuestion,
      parseQuestionList, parseOptionsField, parseStrJ, errsOf]

/-- Witness for C2: a whitespace-only title is rejected; `"  Demo Survey  "`
validates and is stored trimmed to `"Demo Survey"`. -/
theorem c2_title_validation_witness :
    (pyStrip "   " = "" ∧
      isErr (parseSurveyInput (.obj [("title", .str "   ")])) = true) ∧
    (pyStrip "  Demo Survey  " ≠ "" ∧
      parseSurveyInput (titleDoc "  Demo Survey  ") = .ok (titleDocParsed "Demo Survey")) :=
  ⟨⟨rfl, c2_title_validation.1 _ "   " rfl rfl⟩,
   ⟨by decide, c2_title_validation.2 "  Demo Survey  " (by decide)⟩⟩

/-- A question object with required leaf fields `i`, `l`, `ty` plus extra
entries. -/
def c1Question (i l ty : String) (extra : List (String × Json)) : Json :=
  .obj ([("id", .str i), ("label", .str l), ("type", .str ty)] ++ extra)

/-- A survey document with title `"T"` and a single question. -/
def c1Doc (q : Json) : Json :=
  .obj [("title", .str "T"), ("questionnaire", .obj [("questions", .arr [q])])]

/-- The validated document `c1Doc`/`c1Question` produce on success. -/
def c1Parsed (i l ty : String) (opts : Option (List QuestionOption)) : SurveyInput :=
  ⟨"T", ⟨[.mk i l none ty none opts none none none none none none]⟩,
    none, none, none, none, none, none, none, none, none, none, none, none⟩

/-- **C1 (counterexample)**: on the claim's concrete input
`{"title":"T","questionnaire":{"questions":[{"id":"q1","label":"L","type":"singlechoice"}]}}`
(options absent) validation fails via the question-level model validator, so
the reported error path is `questionnaire.questions[0]` — not the claimed
`questionnaire.questions[0].options`. -/
theorem c1_error_path_counterexample :
    parseSurveyInput (c1Doc (c1Question "q1" "L" "singlechoice" [])) =
      .error [([Loc.key "questionnaire", Loc.key "questions", Loc.idx 0],
        choiceModelMsg "singlechoice")] ∧
    [Loc.key "questionnaire", Loc.key "questions", Loc.idx 0] ≠
      [Loc.key "questionnaire", Loc.key "questions", Loc.idx 0, Loc.key "options"] := by
  constructor
  · simp [c1Doc, c1Question, parseSurveyInput, parseQuestionnaire,
      parseQuestionList, parseQuestion, parseOptionsField, parseQuestionOption,
      reqField, optField, lookupAliased, lookupAliasedKey, Json.isNull, findKey, withLoc, parseTitle, parseStrJ,
      errsOf, parseArrWith, parseListWith,
      (by decide : ("T".length = 0) = False), (by decide : pyStrip "T" = "T")]
  · decide

/-- **C1 (amended)**: a `singlechoice`/`multiplechoice` question without
usable options is always rejected with an error referencing that question:
when `options` is absent the model validator reports at the question's own
path (`questionnaire.questions[0]`); when `options` is explicitly `null` or
an empty list the `options` field validator reports at
`questionnaire.questions[0].options`. A choice question with at least one
option passes, and any other question type has no options requirement. -/
theorem c1_choice_options_rule :
    ∀ (i l ty : String),
      ((ty = "singlechoice" ∨ ty = "multiplechoice") →
        parseSurveyInput (c1Doc (c1Question i l ty [])) =
          .error [([Loc.key "questionnaire", Loc.key "questions", Loc.idx 0],
            choiceModelMsg ty)] ∧
        parseSurveyInput (c1Doc (c1Question i l ty [("options", Json.null)])) =
          .error [([Loc.key "questionnaire", Loc.key "questions", Loc.idx 0,
            Loc.key "options"], choiceFieldMsg ty)] ∧
        parseSurveyInput (c1Doc (c1Question i l ty [("options", .arr [])])) =
          .error [([Loc.key "questionnaire", Loc.key "questions", Loc.idx 0,
            Loc.key "options"], choiceFieldMsg ty)] ∧
        (∀ oid ol : String,
          parseSurveyInput (c1Doc (c1Question i l ty
            [("options", .arr [.obj [("id", .str oid), ("label", .str ol)]])])) =
            .ok (c1Parsed i l ty (some [⟨oid, ol, none⟩])))) ∧
      (ty ≠ "singlechoice" → ty ≠ "multiplechoice" →
        parseSurveyInput (c1Doc (c1Question i l ty [])) = .ok (c1Parsed i l ty none)) := by
  intro i l ty
  constructor
  · intro hty
    rcases hty with h | h <;> subst h <;>
      refine ⟨?_, ?_, ?_, fun oid ol => ?_⟩ <;>
      simp [c1Doc, c1Question, c1Parsed, parseSurveyInput, parseQuestionnaire,
        parseQuestionList, parseQuestion, parseOptionsField, parseQuestionOption,
        reqField, optField, lookupAliased, lookupAliasedKey, Json.isNull, findKey, withLoc, parseTitle, parseStrJ,
        errsOf, parseArrWith, parseListWith,
        (by decide : ("T".length = 0) = False), (by decide : pyStrip "T" = "T")]
  · intro h1 h2
    simp [c1Doc, c1Question, c1Parsed, parseSurveyInput, parseQuestionnaire,
      parseQuestionList, parseQuestion, parseOptionsField,
      reqField, optField, lookupAliased, lookupAliasedKey, Json.isNull, findKey, withLoc, parseTitle, parseStrJ,
      errsOf, h1, h2,
      (by decide : ("T".length = 0) = False), (by decide : pyStrip "T" = "T")]

/-- Witness for C1 (amended) at concrete questions: a `singlechoice` question
with one option passes, with an explicitly empty options list it fails at the
`options` path, and a `text` question needs no options. -/
theorem c1_choice_options_rule_witness :
    parseSurveyInput (c1Doc (c1Question "q1" "L" "singlechoice"
        [("options", .arr [.obj [("id", .str "active"), ("label", .str "Active")]])])) =
      .ok (c1Parsed "q1" "L" "singlechoice" (some [⟨"active", "Active", none⟩])) ∧
    parseSurveyInput (c1Doc (c1Question "q1" "L" "singlechoice" [("options", .arr [])])) =
      .error [([Loc.key "questionnaire", Loc.key "questions", Loc.idx 0,
        Loc.key "options"], choiceFieldMsg "singlechoice")] ∧
    parseSurveyInput (c1Doc (c1Question "q1" "L" "text" [])) =
      .ok (c1Parsed "q1" "L" "text" none) :=
  ⟨((c1_choice_options_rule "q1" "L" "singlechoice").1 (Or.inl rfl)).2.2.2 "active" "Active",
   ((c1_choice_options_rule "q1" "L" "singlechoice").1 (Or.inl rfl)).2.2.1,
   (c1_choice_options_rule "q1" "L" "text").2 (by decide) (by decide)⟩

/-- Two validation results that agree on validity and, when valid, on the
validated value (the error reports may differ). -/
def sameOutcome {α : Type} (r1 r2 : VRes α) : Prop :=
  isErr r1 = isErr r2 ∧ ∀ a, r1 = .ok a ↔ r2 = .ok a

theorem sameOutcome_refl {α : Type} (r : VRes α) : sameOutcome r r :=
  ⟨rfl, fun _ => Iff.rfl⟩

theorem sameOutcome_error_right {α : Type} {r1 r2 : VRes α} (h : sameOutcome r1 r2)
    {es : List ValErr} (h1 : r1 = .error es) : ∃ es2, r2 = .error es2 := by
  cases hr2 : r2 with
  | ok a =>
    have h2 := (h.2 a).mpr hr2
    rw [h1] at h2
    simp at h2
  | error es2 => exact ⟨es2, rfl⟩

/-- Two `optField` lookups of the same value found under the two names of one
aliased field have the same outcome: the matched key only enters the error
locations. -/
theorem sameOutcome_optField {α : Type} (p : Json → VRes α) (v : Json)
    (fs1 fs2 : List (String × Json)) (w n : String) {k1 k2 : String}
    (h1 : lookupAliasedKey fs1 w n = some (k1, v))
    (h2 : lookupAliasedKey fs2 w n = some (k2, v)) :
    sameOutcome (optField fs1 w n p) (optField fs2 w n p) := by
  unfold optField
  rw [h1, h2]
  cases hn : v.isNull with
  | true => simp [hn]; exact sameOutcome_refl _
  | false =>
    rcases hp : p v with es | a <;>
      simp [hn, hp, withLoc, sameOutcome, isErr]

/-- The questionnaire used by the C7 documents: one valid free-text question. -/
def c7Questionnaire : Json :=
  .obj [("questions", .arr
    [.obj [("id", .str "q1"), ("label", .str "L"), ("type", .str "text")]])]

/-- A survey document with title `"T"`, a valid questionnaire, and one extra
field entry. -/
def c7Doc (entry : String × Json) : Json :=
  .obj [("title", .str "T"), ("questionnaire", c7Questionnaire), entry]

/-- The document `c7Doc` parses to when the extra entry supplies
`introduction_text` with string value `x`. -/
def c7ParsedIntro (x : String) : SurveyInput :=
  ⟨"T", ⟨[.mk "q1" "L" none "text" none none none none none none none none]⟩,
    some x, none, none, none, none, none, none, none, none, none, none, none⟩

/-- **C7 (counterexample)**: the two spellings are not fully interchangeable:
an invalid value under `introductionText` is reported at
`introductionText`, under `introduction_text` at `introduction_text` (the
library reports the input key actually matched), so the two parse results
differ. -/
theorem c7_alias_loc_counterexample :
    parseSurveyInput (c7Doc ("introductionText", Json.num 5)) =
      .error [([Loc.key "introductionText"], "Input should be a valid string")] ∧
    parseSurveyInput (c7Doc ("introduction_text", Json.num 5)) =
      .error [([Loc.key "introduction_text"], "Input should be a valid string")] ∧
    parseSurveyInput (c7Doc ("introductionText", Json.num 5)) ≠
      parseSurveyInput (c7Doc ("introduction_text", Json.num 5)) := by
  have h1 : parseSurveyInput (c7Doc ("introductionText", Json.num 5)) =
      .error [([Loc.key "introductionText"], "Input should be a valid string")] := by
    simp [c7Doc, c7Questionnaire, parseSurveyInput, parseQuestionnaire,
      parseQuestionList, parseQuestion, parseOptionsField, reqField, optField,
      lookupAliased, lookupAliasedKey, Json.isNull, findKey, withLoc, parseTitle,
      parseStrJ, errsOf,
      (by decide : ("T".length = 0) = False), (by decide : pyStrip "T" = "T")]
  have h2 : parseSurveyInput (c7Doc ("introduction_text", Json.num 5)) =
      .error [([Loc.key "introduction_text"], "Input should be a valid string")] := by
    simp [c7Doc, c7Questionnaire, parseSurveyInput, parseQuestionnaire,
      parseQuestionList, parseQuestion, parseOptionsField, reqField, optField,
      lookupAliased, lookupAliasedKey, Json.isNull, findKey, withLoc, parseTitle,
      parseStrJ, errsOf,
      (by decide : ("T".length = 0) = False), (by decide : pyStrip "T" = "T")]
  exact ⟨h1, h2, by rw [h1, h2]; simp⟩

set_option maxHeartbeats 2000000 in
/-- **C7 (amended)**: for every aliased field, the camelCase wire name and
the snake_case field name are equivalent input keys up to error reporting:
replacing one by the other yields the same validity and, on success, an
equal validated document; when the supplied value is invalid, both
spellings are rejected, with the error located at the key actually supplied.
Stated for all twelve aliased `SurveyInput` fields and, inside the
questionnaire, for `Question.descriptive_text`, at arbitrary field values. -/
theorem c7_alias_equivalence :
    ∀ (t q v : Json),
      sameOutcome
        (parseSurveyInput (.obj [("title", t), ("questionnaire", q), ("introductionText", v)]))
        (parseSurveyInput (.obj [("title", t), ("questionnaire", q), ("introduction_text", v)])) ∧
      sameOutcome
        (parseSurveyInput (.obj [("title", t), ("questionnaire", q), ("introductionSubject", v)]))
        (parseSurveyInput (.obj [("title", t), ("questionnaire", q), ("introduction_subject", v)])) ∧
      sameOutcome
        (parseSurveyInput (.obj [("title", t), ("questionnaire", q), ("additionalFactSheetSubject", v)]))
        (parseSurveyInput (.obj [("title", t), ("questionnaire", q), ("additional_fact_sheet_subject", v)])) ∧
      sameOutcome
        (parseSurveyInput (.obj [("title", t), ("questionnaire", q), ("additionalFactSheetText", v)]))
        (parseSurveyInput (.obj [("title", t), ("questionnaire", q), ("additional_fact_sheet_text", v)])) ∧
      sameOutcome
        (parseSurveyInput (.obj [("title", t), ("questionnaire", q), ("additionalFactSheetCheckEnabled", v)]))
        (parseSurveyInput (.obj [("title", t), ("questionnaire", q), ("additional_fact_sheet_check_enabled", v)])) ∧
      sameOutcome
        (parseSurveyInput (.obj [("title", t), ("questionnaire", q), ("repeatInterval", v)]))
        (parseSurveyInput (.obj [("title", t), ("questionnaire", q), ("repeat_interval", v)])) ∧
      sameOutcome
        (parseSurveyInput (.obj [("title", t), ("questionnaire", q), ("timeFrame", v)]))
        (parseSurveyInput (.obj [("title", t), ("questionnaire", q), ("time_frame", v)])) ∧
      sameOutcome
        (parseSurveyInput (.obj [("title", t), ("questionnaire", q), ("sendChangeNotifications", v)]))
        (parseSurveyInput (.obj [("title", t), ("questionnaire", q), ("send_change_notifications", v)])) ∧
      sameOutcome
        (parseSurveyInput (.obj [("title", t), ("questionnaire", q), ("allowedPermissionStatus", v)]))
        (parseSurveyInput (.obj [("title", t), ("questionnaire", q), ("allowed_permission_status", v)])) ∧
      sameOutcome
        (parseSurveyInput (.obj [("title", t), ("questionnaire", q), ("dynamicScopeCheckEnabled", v)]))
        (parseSurveyInput (.obj [("title", t), ("questionnaire", q), ("dynamic_scope_check_enabled", v)])) ∧
      sameOutcome
        (parseSurveyInput (.obj [("title", t), ("questionnaire", q), ("factSheetQuery", v)]))
        (parseSurveyInput (.obj [("title", t), ("questionnaire", q), ("fact_sheet_query", v)])) ∧
      sameOutcome
        (parseSurveyInput (.obj [("title", t), ("questionnaire", q), ("userQuery", v)]))
        (parseSurveyInput (.obj [("title", t), ("questionnaire", q), ("user_query", v)])) ∧
      sameOutcome
        (parseQuestion (.obj [("id", .str "q1"), ("label", .str "L"),
          ("type", .str "text"), ("descriptiveText", v)]))
        (parseQuestion (.obj [("id", .str "q1"), ("label", .str "L"),
          ("type", .str "text"), ("descriptive_text", v)])) := by
  intro t q v
  refine ⟨?_, ?_, ?_, ?_, ?_, ?_, ?_, ?_, ?_, ?_, ?_, ?_, ?_⟩
  · have hso := sameOutcome_optField parseStrJ v
        [("title", t), ("questionnaire", q), ("introductionText", v)]
        [("title", t), ("questionnaire", q), ("introduction_text", v)]
        "introductionText" "introduction_text" rfl rfl
    rcases hro1 : optField [("title", t), ("questionnaire", q), ("introductionText", v)]
        "introductionText" "introduction_text" parseStrJ with es1 | a1
    · obtain ⟨es2, hro2⟩ := sameOutcome_error_right hso hro1
      rcases ht : parseTitle t with e1 | a2 <;>
        rcases hq : parseQuestionnaire q with e2 | a3 <;>
        (simp only [parseSurveyInput]
         rw [hro1, hro2]
         simp [optField, reqField, lookupAliasedKey, findKey, withLoc, errsOf, isErr,
           sameOutcome, ht, hq])
    · have hro2 := (hso.2 a1).mp hro1
      simp only [parseSurveyInput]
      rw [hro1, hro2]
      exact sameOutcome_refl _
  · have hso := sameOutcome_optField parseStrJ v
        [("title", t), ("questionnaire", q), ("introductionSubject", v)]
        [("title", t), ("questionnaire", q), ("introduction_subject", v)]
        "introductionSubject" "introduction_subject" rfl rfl
    rcases hro1 : optField [("title", t), ("questionnaire", q), ("introductionSubject", v)]
        "introductionSubject" "introduction_subject" parseStrJ with es1 | a1
    · obtain ⟨es2, hro2⟩ := sameOutcome_error_right hso hro1
      rcases ht : parseTitle t with e1 | a2 <;>
        rcases hq : parseQuestionnaire q with e2 | a3 <;>
        (simp only [parseSurveyInput]
         rw [hro1, hro2]
         simp [optField, reqField, lookupAliasedKey, findKey, withLoc, errsOf, isErr,
           sameOutcome, ht, hq])
    · have hro2 := (hso.2 a1).mp hro1
      simp only [parseSurveyInput]
      rw [hro1, hro2]
      exact sameOutcome_refl _
  · have hso := sameOutcome_optField parseStrJ v
        [("title", t), ("questionnaire", q), ("additionalFactSheetSubject", v)]
        [("title", t), ("questionnaire", q), ("additional_fact_sheet_subject", v)]
        "additionalFactSheetSubject" "additional_fact_sheet_subject" rfl rfl
    rcases hro1 : optField [("title", t), ("questionnaire", q), ("additionalFactSheetSubject", v)]
        "additionalFactSheetSubject" "additional_fact_sheet_subject" parseStrJ with es1 | a1
    · obtain ⟨es2, hro2⟩ := sameOutcome_error_right hso hro1
      rcases ht : parseTitle t with e1 | a2 <;>
        rcases hq : parseQuestionnaire q with e2 | a3 <;>
        (simp only [parseSurveyInput]
         rw [hro1, hro2]
         simp [optField, reqField, lookupAliasedKey, findKey, withLoc, errsOf, isErr,
           sameOutcome, ht, hq])
    · have hro2 := (hso.2 a1).mp hro1
      simp only [parseSurveyInput]
      rw [hro1, hro2]
      exact sameOutcome_refl _
  · have hso := sameOutcome_optField parseStrJ v
        [("title", t), ("questionnaire", q), ("additionalFactSheetText", v)]
        [("title", t), ("questionnaire", q), ("additional_fact_sheet_text", v)]
        "additionalFactSheetText" "additional_fact_sheet_text" rfl rfl
    rcases hro1 : optField [("title", t), ("questionnaire", q), ("additionalFactSheetText", v)]
        "additionalFactSheetText" "additional_fact_sheet_text" parseStrJ with es1 | a1
    · obtain ⟨es2, hro2⟩ := sameOutcome_error_right hso hro1
      rcases ht : parseTitle t with e1 | a2 <;>
        rcases hq : parseQuestionnaire q with e2 | a3 <;>
        (simp only [parseSurveyInput]
         rw [hro1, hro2]
         simp [optField, reqField, lookupAliasedKey, findKey, withLoc, errsOf, isErr,
           sameOutcome, ht, hq])
    · have hro2 := (hso.2 a1).mp hro1
      simp only [parseSurveyInput]
      rw [hro1, hro2]
      exact sameOutcome_refl _
  · have hso := sameOutcome_optField parseBoolJ v
        [("title", t), ("questionnaire", q), ("additionalFactSheetCheckEnabled", v)]
        [("title", t), ("questionnaire", q), ("additional_fact_sheet_check_enabled", v)]
        "additionalFactSheetCheckEnabled" "additional_fact_sheet_check_enabled" rfl rfl
    rcases hro1 : optField [("title", t), ("questionnaire", q), ("additionalFactSheetCheckEnabled", v)]
        "additionalFactSheetCheckEnabled" "additional_fact_sheet_check_enabled" parseBoolJ with es1 | a1
    · obtain ⟨es2, hro2⟩ := sameOutcome_error_right hso hro1
      rcases ht : parseTitle t with e1 | a2 <;>
        rcases hq : parseQuestionnaire q with e2 | a3 <;>
        (simp only [parseSurveyInput]
         rw [hro1, hro2]
         simp [optField, reqField, lookupAliasedKey, findKey, withLoc, errsOf, isErr,
           sameOutcome, ht, hq])
    · have hro2 := (hso.2 a1).mp hro1
      simp only [parseSurveyInput]
      rw [hro1, hro2]
      exact sameOutcome_refl _
  · have hso := sameOutcome_optField parseIntJ v
        [("title", t), ("questionnaire", q), ("repeatInterval", v)]
        [("title", t), ("questionnaire", q), ("repeat_interval", v)]
        "repeatInterval" "repeat_interval" rfl rfl
    rcases hro1 : optField [("title", t), ("questionnaire", q), ("repeatInterval", v)]
        "repeatInterval" "repeat_interval" parseIntJ with es1 | a1
    · obtain ⟨es2, hro2⟩ := sameOutcome_error_right hso hro1
      rcases ht : parseTitle t with e1 | a2 <;>
        rcases hq : parseQuestionnaire q with e2 | a3 <;>
        (simp only [parseSurveyInput]
         rw [hro1, hro2]
         simp [optField, reqField, lookupAliasedKey, findKey, withLoc, errsOf, isErr,
           sameOutcome, ht, hq])
    · have hro2 := (hso.2 a1).mp hro1
      simp only [parseSurveyInput]
      rw [hro1, hro2]
      exact sameOutcome_refl _
  · have hso := sameOutcome_optField parseIntJ v
        [("title", t), ("questionnaire", q), ("timeFrame", v)]
        [("title", t), ("questionnaire", q), ("time_frame", v)]
        "timeFrame" "time_frame" rfl rfl
    rcases hro1 : optField [("title", t), ("questionnaire", q), ("timeFrame", v)]
        "timeFrame" "time_frame" parseIntJ with es1 | a1
    · obtain ⟨es2, hro2⟩ := sameOutcome_error_right hso hro1
      rcases ht : parseTitle t with e1 | a2 <;>
        rcases hq : parseQuestionnaire q with e2 | a3 <;>
        (simp only [parseSurveyInput]
         rw [hro1, hro2]
         simp [optField, reqField, lookupAliasedKey, findKey, withLoc, errsOf, isErr,
           sameOutcome, ht, hq])
    · have hro2 := (hso.2 a1).mp hro1
      simp only [parseSurveyInput]
      rw [hro1, hro2]
      exact sameOutcome_refl _
  · have hso := sameOutcome_optField parseBoolJ v
        [("title", t), ("questionnaire", q), ("sendChangeNotifications", v)]
        [("title", t), ("questionnaire", q), ("send_change_notifications", v)]
        "sendChangeNotifications" "send_change_notifications" rfl rfl
    rcases hro1 : optField [("title", t), ("questionnaire", q), ("sendChangeNotifications", v)]
        "sendChangeNotifications" "send_change_notifications" parseBoolJ with es1 | a1
    · obtain ⟨es2, hro2⟩ := sameOutcome_error_right hso hro1
      rcases ht : parseTitle t with e1 | a2 <;>
        rcases hq : parseQuestionnaire q with e2 | a3 <;>
        (simp only [parseSurveyInput]
         rw [hro1, hro2]
         simp [optField, reqField, lookupAliasedKey, findKey, withLoc, errsOf, isErr,
           sameOutcome, ht, hq])
    · have hro2 := (hso.2 a1).mp hro1
      simp only [parseSurveyInput]
      rw [hro1, hro2]
      exact sameOutcome_refl _
  · have hso := sameOutcome_optField parseAllowedPermissionStatus v
        [("title", t), ("questionnaire", q), ("allowedPermissionStatus", v)]
        [("title", t), ("questionnaire", q), ("allowed_permission_status", v)]
        "allowedPermissionStatus" "allowed_permission_status" rfl rfl
    rcases hro1 : optField [("title", t), ("questionnaire", q), ("allowedPermissionStatus", v)]
        "allowedPermissionStatus" "allowed_permission_status" parseAllowedPermissionStatus with es1 | a1
    · obtain ⟨es2, hro2⟩ := sameOutcome_error_right hso hro1
      rcases ht : parseTitle t with e1 | a2 <;>
        rcases hq : parseQuestionnaire q with e2 | a3 <;>
        (simp only [parseSurveyInput]
         rw [hro1, hro2]
         simp [optField, reqField, lookupAliasedKey, findKey, withLoc, errsOf, isErr,
           sameOutcome, ht, hq])
    · have hro2 := (hso.2 a1).mp hro1
      simp only [parseSurveyInput]
      rw [hro1, hro2]
      exact sameOutcome_refl _
  · have hso := sameOutcome_optField parseBoolJ v
        [("title", t), ("questionnaire", q), ("dynamicScopeCheckEnabled", v)]
        [("title", t), ("questionnaire", q), ("dynamic_scope_check_enabled", v)]
        "dynamicScopeCheckEnabled" "dynamic_scope_check_enabled" rfl rfl
    rcases hro1 : optField [("title", t), ("questionnaire", q), ("dynamicScopeCheckEnabled", v)]
        "dynamicScopeCheckEnabled" "dynamic_scope_check_enabled" parseBoolJ with es1 | a1
    · obtain ⟨es2, hro2⟩ := sameOutcome_error_right hso hro1
      rcases ht : parseTitle t with e1 | a2 <;>
        rcases hq : parseQuestionnaire q with e2 | a3 <;>
        (simp only [parseSurveyInput]
         rw [hro1, hro2]
         simp [optField, reqField, lookupAliasedKey, findKey, withLoc, errsOf, isErr,
           sameOutcome, ht, hq])
    · have hro2 := (hso.2 a1).mp hro1
      simp only [parseSurveyInput]
      rw [hro1, hro2]
      exact sameOutcome_refl _
  · have hso := sameOutcome_optField parseFactSheetQuery v
        [("title", t), ("questionnaire", q), ("factSheetQuery", v)]
        [("title", t), ("questionnaire", q), ("fact_sheet_query", v)]
        "factSheetQuery" "fact_sheet_query" rfl rfl
    rcases hro1 : optField [("title", t), ("questionnaire", q), ("factSheetQuery", v)]
        "factSheetQuery" "fact_sheet_query" parseFactSheetQuery with es1 | a1
    · obtain ⟨es2, hro2⟩ := sameOutcome_error_right hso hro1
      rcases ht : parseTitle t with e1 | a2 <;>
        rcases hq : parseQuestionnaire q with e2 | a3 <;>
        (simp only [parseSurveyInput]
         rw [hro1, hro2]
         simp [optField, reqField, lookupAliasedKey, findKey, withLoc, errsOf, isErr,
           sameOutcome, ht, hq])
    · have hro2 := (hso.2 a1).mp hro1
      simp only [parseSurveyInput]
      rw [hro1, hro2]
      exact sameOutcome_refl _
  · have hso := sameOutcome_optField parseUserQuery v
        [("title", t), ("questionnaire", q), ("userQuery", v)]
        [("title", t), ("questionnaire", q), ("user_query", v)]
        "userQuery" "user_query" rfl rfl
    rcases hro1 : optField [("title", t), ("questionnaire", q), ("userQuery", v)]
        "userQuery" "user_query" parseUserQuery with es1 | a1
    · obtain ⟨es2, hro2⟩ := sameOutcome_error_right hso hro1
      rcases ht : parseTitle t with e1 | a2 <;>
        rcases hq : parseQuestionnaire q with e2 | a3 <;>
        (simp only [parseSurveyInput]
         rw [hro1, hro2]
         simp [optField, reqField, lookupAliasedKey, findKey, withLoc, errsOf, isErr,
           sameOutcome, ht, hq])
    · have hro2 := (hso.2 a1).mp hro1
      simp only [parseSurveyInput]
      rw [hro1, hro2]
      exact sameOutcome_refl _
  · have hso := sameOutcome_optField parseStrJ v
        [("id", .str "q1"), ("label", .str "L"), ("type", .str "text"),
          ("descriptiveText", v)]
        [("id", .str "q1"), ("label", .str "L"), ("type", .str "text"),
          ("descriptive_text", v)]
        "descriptiveText" "descriptive_text" rfl rfl
    rcases hro1 : optField [("id", .str "q1"), ("label", .str "L"),
        ("type", .str "text"), ("descriptiveText", v)]
        "descriptiveText" "descriptive_text" parseStrJ with es1 | a1
    · obtain ⟨es2, hro2⟩ := sameOutcome_error_right hso hro1
      simp only [parseQuestion]
      rw [hro1, hro2]
      simp [reqField, optField, parseOptionsField, lookupAliased, lookupAliasedKey,
        Json.isNull, findKey, withLoc, errsOf, isErr, sameOutcome, parseStrJ]
    · have hro2 := (hso.2 a1).mp hro1
      simp only [parseQuestion]
      rw [hro1, hro2]
      exact sameOutcome_refl _

/-- Witness for C7 (amended): with the concrete valid questionnaire, an
invalid `introductionText`/`introduction_text` value yields the same
validity under both spellings, and a valid value yields the same validated
document. -/
theorem c7_alias_equivalence_witness :
    isErr (parseSurveyInput (.obj [("title", Json.str "T"),
        ("questionnaire", c7Questionnaire), ("introductionText", Json.num 5)])) =
      isErr (parseSurveyInput (.obj [("title", Json.str "T"),
        ("questionnaire", c7Questionnaire), ("introduction_text", Json.num 5)])) ∧
    (parseSurveyInput (.obj [("title", Json.str "T"),
        ("questionnaire", c7Questionnaire), ("introductionText", Json.str "Hi")]) =
        .ok (c7ParsedIntro "Hi") ↔
      parseSurveyInput (.obj [("title", Json.str "T"),
        ("questionnaire", c7Questionnaire), ("introduction_text", Json.str "Hi")]) =
        .ok (c7ParsedIntro "Hi")) :=
  ⟨((c7_alias_equivalence (Json.str "T") c7Questionnaire (Json.num 5)).1).1,
   ((c7_alias_equivalence (Json.str "T") c7Questionnaire (Json.str "Hi")).1).2
     (c7ParsedIntro "Hi")⟩

/-! ### Serialization helper lemmas -/

theorem optEntry_none {α : Type} {name : String} {f : α → Json} :
    optEntry name none f = [] := rfl

theorem findKey_optEntry_append {α : Type} {name : String} {o : Option α} {f : α → Json}
    {rest : List (String × Json)} {k : String} (h : name ≠ k) :
    findKey (optEntry name o f ++ rest) k = findKey rest k := by
  cases o <;> simp [optEntry, findKey, h]

theorem findKey_optEntry_ne {α : Type} {name : String} {o : Option α} {f : α → Json}
    {k : String} (h : name ≠ k) : findKey (optEntry name o f) k = none := by
  cases o <;> simp [optEntry, findKey, h]

theorem fst_of_mem_optEntry {α : Type} {name : String} {o : Option α} {f : α → Json}
    {e : String × Json} (h : e ∈ optEntry name o f) : e.1 = name := by
  cases o with
  | none => simp [optEntry] at h
  | some v => simp [optEntry] at h; rw [h]

theorem mem_optEntry_iff {α : Type} {name : String} {o : Option α} {f : α → Json}
    {e : String × Json} : e ∈ optEntry name o f ↔ ∃ v, o = some v ∧ e = (name, f v) := by
  cases o <;> simp [optEntry]

/-- The top-level wire keys of a serialized `PollCreate`, per the alias map. -/
def pollCreateWireKeys : List String :=
  ["title", "language", "factSheetType", "questionnaire", "dueDate",
   "introductionText", "introductionSubject", "additionalFactSheetSubject",
   "additionalFactSheetText", "additionalFactSheetCheckEnabled", "repeatInterval",
   "timeFrame", "sendChangeNotifications", "allowedPermissionStatus",
   "dynamicScopeCheckEnabled", "factSheetQuery", "userQuery"]

theorem dumpQuestionList_map : ∀ cs : List Question, dumpQuestionList cs = cs.map dumpQuestion
  | [] => rfl
  | q :: rest => by simp [dumpQuestionList, dumpQuestion, dumpQuestionList_map rest]

theorem dumpFacetFilterList_map :
    ∀ fl : List FacetFilter, dumpFacetFilterList fl = fl.map dumpFacetFilter
  | [] => rfl
  | f :: rest => by simp [dumpFacetFilterList, dumpFacetFilter, dumpFacetFilterList_map rest]

/-- **C4**: wire serialization emits every present field under its camelCase
wire name (top-level keys always come from the wire-key table, and the
internal name `fact_sheet_type` never appears), omits an absent `dueDate`
entirely rather than emitting `null`, and serializes the ordered sequences
(questions, options, filters) preserving their order. -/
theorem c4_wire_serialization :
    (∀ pc : PollCreate, pc.due_date = none →
      findKey (dumpPollCreate pc) "dueDate" = none) ∧
    (∀ (pc : PollCreate) (d : PyDate), pc.due_date = some d →
      findKey (dumpPollCreate pc) "dueDate" = some (.str (dateToISO d))) ∧
    (∀ pc : PollCreate, ∀ e ∈ dumpPollCreate pc, e.1 ∈ pollCreateWireKeys) ∧
    (∀ pc : PollCreate, findKey (dumpPollCreate pc) "fact_sheet_type" = none) ∧
    (∀ qn : Questionnaire,
      dumpQuestionnaire qn = .obj [("questions", .arr (qn.questions.map dumpQuestion))]) ∧
    (∀ cs : List Question, dumpQuestionList cs = cs.map dumpQuestion) ∧
    (∀ fl : List FacetFilter, dumpFacetFilterList fl = fl.map dumpFacetFilter) ∧
    (∀ (q : Question) (os : List QuestionOption), q.options = some os →
      findKey (dumpQuestionFields q) "options" =
        some (.arr (os.map dumpQuestionOption))) := by
  refine ⟨?_, ?_, ?_, ?_, fun qn => rfl, dumpQuestionList_map, dumpFacetFilterList_map, ?_⟩
  · intro pc h
    simp [dumpPollCreate, h, optEntry_none, findKey, findKey_optEntry_append,
      findKey_optEntry_ne]
  · intro pc d h
    simp [dumpPollCreate, h, optEntry, findKey]
  · intro pc e he
    simp only [dumpPollCreate, List.append_assoc, List.mem_append, List.mem_cons,
      List.mem_singleton, List.not_mem_nil, or_false, false_or] at he
    rcases he with (rfl | rfl | rfl | rfl) | he | he | he | he | he | he | he | he |
      he | he | he | he | he <;>
      first
        | (rw [fst_of_mem_optEntry he]; decide)
        | simp [pollCreateWireKeys]
  · intro pc
    simp [dumpPollCreate, findKey, findKey_optEntry_append, findKey_optEntry_ne]
  · intro q os h
    cases q with
    | mk i l desc ty elem opts ans children power dis fse settings =>
      cases opts with
      | none => simp [Question.options] at h
      | some os2 =>
        simp only [Question.options, Option.some.injEq] at h
        subst h
        cases children <;>
          simp [dumpQuestionFields, findKey, findKey_optEntry_append]

/-- A `PollCreate` with no due date, assembled from the sample survey. -/
def pcSample : PollCreate :=
  PollCreate.from_survey_input sampleSurveyInput "de" "ITComponent" none

/-- A choice question with one option. -/
def qSample : Question :=
  .mk "q1" "L" none "singlechoice" none (some [⟨"a", "A", none⟩]) none none
    none none none none

/-- The sample poll with a concrete due date. -/
def pcSampleDue : PollCreate :=
  PollCreate.from_survey_input sampleSurveyInput "de" "ITComponent" (some ⟨2024, 12, 31⟩)

/-- Witness for C4: the sample poll without a due date serializes with no
`dueDate` key, a present due date appears under `dueDate` as an ISO string,
and a concrete options list serializes in order under `options`. -/
theorem c4_wire_serialization_witness :
    findKey (dumpPollCreate pcSample) "dueDate" = none ∧
    findKey (dumpPollCreate pcSampleDue) "dueDate" = some (.str "2024-12-31") ∧
    findKey (dumpQuestionFields qSample) "options" =
      some (.arr [.obj [("id", .str "a"), ("label", .str "A")]]) :=
  ⟨c4_wire_serialization.1 pcSample rfl,
   c4_wire_serialization.2.1 pcSampleDue ⟨2024, 12, 31⟩ rfl,
   c4_wire_serialization.2.2.2.2.2.2.2 qSample [⟨"a", "A", none⟩] rfl⟩

/-! ### Absence of nulls in the serialized payload -/

/-- No entry of a dumped object carries a JSON `null` value. -/
def noNullVals (entries : List (String × Json)) : Prop :=
  ∀ e ∈ entries, e.2 ≠ Json.null

/-- The field list of a JSON object. -/
def objFields : Json → List (String × Json)
  | .obj fs => fs
  | _ => []

theorem noNull_dumpPollCreate (pc : PollCreate) : noNullVals (dumpPollCreate pc) := by
  intro e he
  simp only [dumpPollCreate, List.append_assoc, List.mem_append, List.mem_cons,
    List.not_mem_nil, or_false, false_or, mem_optEntry_iff] at he
  rcases he with (rfl | rfl | rfl | rfl) | ⟨v, hv, rfl⟩ | ⟨v, hv, rfl⟩ | ⟨v, hv, rfl⟩ |
    ⟨v, hv, rfl⟩ | ⟨v, hv, rfl⟩ | ⟨v, hv, rfl⟩ | ⟨v, hv, rfl⟩ | ⟨v, hv, rfl⟩ |
    ⟨v, hv, rfl⟩ | ⟨v, hv, rfl⟩ | ⟨v, hv, rfl⟩ | ⟨v, hv, rfl⟩ | ⟨v, hv, rfl⟩ <;>
    simp [dumpQuestionnaire, dumpFactSheetQuery, dumpUserQuery]

theorem noNull_dumpQuestionFields (q : Question) : noNullVals (dumpQuestionFields q) := by
  cases q with
  | mk i l desc ty elem opts ans children power dis fse settings =>
    intro e he
    cases opts <;> cases children <;>
      simp only [dumpQuestionFields, List.append_assoc, List.mem_append, List.mem_cons,
        List.not_mem_nil, List.nil_append, or_false, false_or, mem_optEntry_iff] at he
    · rcases he with (rfl | rfl) | ⟨v, hv, rfl⟩ | rfl | ⟨v, hv, rfl⟩ | ⟨v, hv, rfl⟩ |
        ⟨v, hv, rfl⟩ | ⟨v, hv, rfl⟩ | ⟨v, hv, rfl⟩ | ⟨v, hv, rfl⟩ <;>
        simp [dumpFactSheetElement, dumpQuestionSettings]
    · rcases he with (rfl | rfl) | ⟨v, hv, rfl⟩ | rfl | ⟨v, hv, rfl⟩ | ⟨v, hv, rfl⟩ | rfl |
        ⟨v, hv, rfl⟩ | ⟨v, hv, rfl⟩ | ⟨v, hv, rfl⟩ | ⟨v, hv, rfl⟩ <;>
        simp [dumpFactSheetElement, dumpQuestionSettings]
    · rcases he with (rfl | rfl) | ⟨v, hv, rfl⟩ | rfl | ⟨v, hv, rfl⟩ | rfl | ⟨v, hv, rfl⟩ |
        ⟨v, hv, rfl⟩ | ⟨v, hv, rfl⟩ | ⟨v, hv, rfl⟩ | ⟨v, hv, rfl⟩ <;>
        simp [dumpFactSheetElement, dumpQuestionSettings]
    · rcases he with (rfl | rfl) | ⟨v, hv, rfl⟩ | rfl | ⟨v, hv, rfl⟩ | rfl | ⟨v, hv, rfl⟩ |
        rfl | ⟨v, hv, rfl⟩ | ⟨v, hv, rfl⟩ | ⟨v, hv, rfl⟩ | ⟨v, hv, rfl⟩ <;>
        simp [dumpFactSheetElement, dumpQuestionSettings]

theorem noNull_dumpQuestionOption (o : QuestionOption) :
    noNullVals (objFields (dumpQuestionOption o)) := by
  intro e he
  simp only [dumpQuestionOption, objFields, List.append_assoc, List.mem_append,
    List.mem_cons, List.not_mem_nil, or_false, false_or, mem_optEntry_iff] at he
  rcases he with (rfl | rfl) | ⟨v, hv, rfl⟩ <;> simp

theorem noNull_dumpElementProperty (p : ElementProperty) :
    noNullVals (objFields (dumpElementProperty p)) := by
  intro e he
  simp only [dumpElementProperty, objFields, List.mem_cons, List.not_mem_nil,
    or_false] at he
  rcases he with rfl <;> simp

theorem noNull_dumpFactSheetElement (x : FactSheetElement) :
    noNullVals (objFields (dumpFactSheetElement x)) := by
  intro e he
  simp only [dumpFactSheetElement, objFields, List.append_assoc, List.mem_append,
    List.not_mem_nil, or_false, false_or, mem_optEntry_iff] at he
  rcases he with ⟨v, hv, rfl⟩ | ⟨v, hv, rfl⟩ | ⟨v, hv, rfl⟩ | ⟨v, hv, rfl⟩ |
    ⟨v, hv, rfl⟩ | ⟨v, hv, rfl⟩ | ⟨v, hv, rfl⟩ | ⟨v, hv, rfl⟩ <;> simp

theorem noNull_dumpDependencySettings (d : DependencySettings) :
    noNullVals (objFields (dumpDependencySettings d)) := by
  intro e he
  simp only [dumpDependencySettings, objFields, List.mem_cons, List.not_mem_nil,
    or_false] at he
  rcases he with rfl | rfl <;> simp

theorem noNull_dumpQuestionSettings (s : QuestionSettings) :
    noNullVals (objFields (dumpQuestionSettings s)) := by
  intro e he
  simp only [dumpQuestionSettings, objFields, List.append_assoc, List.mem_append,
    List.not_mem_nil, or_false, false_or, mem_optEntry_iff] at he
  rcases he with ⟨v, hv, rfl⟩ | ⟨v, hv, rfl⟩ | ⟨v, hv, rfl⟩ | ⟨v, hv, rfl⟩ |
    ⟨v, hv, rfl⟩ | ⟨v, hv, rfl⟩ | ⟨v, hv, rfl⟩ | ⟨v, hv, rfl⟩ <;>
    simp [dumpDependencySettings]

theorem noNull_dumpQuestionnaire (qn : Questionnaire) :
    noNullVals (objFields (dumpQuestionnaire qn)) := by
  intro e he
  simp only [dumpQuestionnaire, objFields, List.mem_cons, List.not_mem_nil, or_false] at he
  rcases he with rfl <;> simp

theorem noNull_dumpDateFilter (d : DateFilter) :
    noNullVals (objFields (dumpDateFilter d)) := by
  intro e he
  simp only [dumpDateFilter, objFields, List.append_assoc, List.mem_append, List.mem_cons,
    List.not_mem_nil, or_false, false_or, mem_optEntry_iff] at he
  rcases he with ⟨v, hv, rfl⟩ | ⟨v, hv, rfl⟩ | rfl <;> simp

theorem noNull_dumpSubscriptionFilter (s : SubscriptionFilter) :
    noNullVals (objFields (dumpSubscriptionFilter s)) := by
  intro e he
  simp only [dumpSubscriptionFilter, objFields, List.append_assoc, List.mem_append,
    List.mem_cons, List.not_mem_nil, or_false, false_or, mem_optEntry_iff] at he
  rcases he with rfl | ⟨v, hv, rfl⟩ <;> simp

theorem noNull_dumpFacetFilterFields (f : FacetFilter) :
    noNullVals (dumpFacetFilterFields f) := by
  cases f with
  | mk fk keys op df sf sub =>
    intro e he
    cases sub <;>
      simp only [dumpFacetFilterFields, List.append_assoc, List.mem_append, List.mem_cons,
        List.not_mem_nil, List.nil_append, or_false, false_or, mem_optEntry_iff] at he
    · rcases he with ⟨v, hv, rfl⟩ | ⟨v, hv, rfl⟩ | ⟨v, hv, rfl⟩ | ⟨v, hv, rfl⟩ |
        ⟨v, hv, rfl⟩ <;> simp [dumpDateFilter, dumpSubscriptionFilter]
    · rcases he with ⟨v, hv, rfl⟩ | ⟨v, hv, rfl⟩ | ⟨v, hv, rfl⟩ | ⟨v, hv, rfl⟩ |
        ⟨v, hv, rfl⟩ | rfl <;> simp [dumpDateFilter, dumpSubscriptionFilter]

theorem noNull_dumpQueryFilter (qf : QueryFilter) :
    noNullVals (objFields (dumpQueryFilter qf)) := by
  cases qf with
  | mk fst ff term =>
    intro e he
    cases ff <;>
      simp only [dumpQueryFilter, objFields, List.append_assoc, List.mem_append,
        List.mem_cons, List.not_mem_nil, List.nil_append, or_false, false_or,
        mem_optEntry_iff] at he
    · rcases he with ⟨v, hv, rfl⟩ | ⟨v, hv, rfl⟩ <;> simp
    · rcases he with ⟨v, hv, rfl⟩ | rfl | ⟨v, hv, rfl⟩ <;> simp

theorem noNull_dumpFactSheetQuery (q : FactSheetQuery) :
    noNullVals (objFields (dumpFactSheetQuery q)) := by
  intro e he
  simp only [dumpFactSheetQuery, objFields, List.append_assoc, List.mem_append,
    List.not_mem_nil, or_false, false_or, mem_optEntry_iff] at he
  rcases he with ⟨v, hv, rfl⟩ | ⟨v, hv, rfl⟩ <;> simp [dumpQueryFilter]

theorem noNull_dumpUserRoleDetails (d : UserRoleDetails) :
    noNullVals (objFields (dumpUserRoleDetails d)) := by
  intro e he
  simp only [dumpUserRoleDetails, objFields, List.mem_cons, List.not_mem_nil,
    or_false] at he
  rcases he with rfl | rfl <;> simp

theorem noNull_dumpUserRole (r : UserRole) :
    noNullVals (objFields (dumpUserRole r)) := by
  intro e he
  simp only [dumpUserRole, objFields, List.append_assoc, List.mem_append, List.mem_cons,
    List.not_mem_nil, or_false, false_or, mem_optEntry_iff] at he
  rcases he with rfl | ⟨v, hv, rfl⟩ <;> simp

theorem noNull_dumpUserQuery (q : UserQuery) :
    noNullVals (objFields (dumpUserQuery q)) := by
  intro e he
  simp only [dumpUserQuery, objFields, List.mem_cons, List.not_mem_nil, or_false] at he
  rcases he with rfl <;> simp

theorem lookupAliased_eq_snd {fs : List (String × Json)} {w n : String} :
    lookupAliased fs w n = Option.map (fun kv => kv.2) (lookupAliasedKey fs w n) := by
  unfold lookupAliased lookupAliasedKey
  rcases h1 : findKey fs w with _ | v1 <;> rcases h2 : findKey fs n with _ | v2 <;>
    simp [h1, h2]

/-- **C9**: an optional field is stored as `None` whether it was absent or
explicitly `null` in the input; serialization with `exclude_none=True` omits
every `None` field (`optEntry` of `none` is empty); consequently no model, at
any nesting level, ever emits a field whose value is JSON `null`. -/
theorem c9_no_null_ever_emitted :
    (∀ (α : Type) (p : Json → VRes α) (fs : List (String × Json)) (wireName pyName : String),
      (lookupAliased fs wireName pyName = none →
        optField fs wireName pyName p = .ok none) ∧
      (lookupAliased fs wireName pyName = some .null →
        optField fs wireName pyName p = .ok none)) ∧
    (∀ (α : Type) (name : String) (f : α → Json), optEntry name none f = []) ∧
    (∀ pc, noNullVals (dumpPollCreate pc)) ∧
    (∀ q, noNullVals (dumpQuestionFields q)) ∧
    (∀ o, noNullVals (objFields (dumpQuestionOption o))) ∧
    (∀ p, noNullVals (objFields (dumpElementProperty p))) ∧
    (∀ x, noNullVals (objFields (dumpFactSheetElement x))) ∧
    (∀ d, noNullVals (objFields (dumpDependencySettings d))) ∧
    (∀ s, noNullVals (objFields (dumpQuestionSettings s))) ∧
    (∀ qn, noNullVals (objFields (dumpQuestionnaire qn))) ∧
    (∀ d, noNullVals (objFields (dumpDateFilter d))) ∧
    (∀ s, noNullVals (objFields (dumpSubscriptionFilter s))) ∧
    (∀ f, noNullVals (dumpFacetFilterFields f)) ∧
    (∀ qf, noNullVals (objFields (dumpQueryFilter qf))) ∧
    (∀ q, noNullVals (objFields (dumpFactSheetQuery q))) ∧
    (∀ d, noNullVals (objFields (dumpUserRoleDetails d))) ∧
    (∀ r, noNullVals (objFields (dumpUserRole r))) ∧
    (∀ q, noNullVals (objFields (dumpUserQuery q))) := by
  refine ⟨?_, fun α name f => rfl, noNull_dumpPollCreate, noNull_dumpQuestionFields,
    noNull_dumpQuestionOption, noNull_dumpElementProperty, noNull_dumpFactSheetElement,
    noNull_dumpDependencySettings, noNull_dumpQuestionSettings, noNull_dumpQuestionnaire,
    noNull_dumpDateFilter, noNull_dumpSubscriptionFilter, noNull_dumpFacetFilterFields,
    noNull_dumpQueryFilter, noNull_dumpFactSheetQuery, noNull_dumpUserRoleDetails,
    noNull_dumpUserRole, noNull_dumpUserQuery⟩
  intro α p fs wireName pyName
  constructor <;> intro h <;> rw [lookupAliased_eq_snd] at h
  · cases hk : lookupAliasedKey fs wireName pyName with
    | none => simp [optField, hk]
    | some kv => rw [hk] at h; simp at h
  · cases hk : lookupAliasedKey fs wireName pyName with
    | none => rw [hk] at h; simp at h
    | some kv =>
      obtain ⟨k, j⟩ := kv
      rw [hk] at h
      simp at h
      subst h
      simp [optField, hk, Json.isNull]

/-- Witness for C9: an explicitly `null` `introductionText` parses to `None`
exactly like an absent one, and a concrete emitted entry is not null. -/
theorem c9_no_null_ever_emitted_witness :
    optField [("introductionText", Json.null)] "introductionText" "introduction_text"
      parseStrJ = .ok none ∧
    optField [] "introductionText" "introduction_text" parseStrJ = .ok none ∧
    ("title", Json.str "Test Survey").2 ≠ Json.null :=
  ⟨(c9_no_null_ever_emitted.1 String parseStrJ _ "introductionText" "introduction_text").2
      rfl,
   (c9_no_null_ever_emitted.1 String parseStrJ _ "introductionText" "introduction_text").1
      rfl,
   c9_no_null_ever_emitted.2.2.1 pcSample ("title", Json.str "Test Survey")
     (by simp [pcSample, PollCreate.from_survey_input, sampleSurveyInput, dumpPollCreate])⟩

/-- **C6 (amended)**: `validate_json_string` always returns a
`(is_valid, document, message)` triple: on parse failure
`(False, None, "Invalid JSON: ...")`; on successful validation
`(True, document, "")`; on a schema violation `(False, None, msg)` where
`msg` is a single flat string that lists, in order, one
`"  • path: message"` line per violation (the ordered error list is
flattened into the string, not returned as a list of pairs). -/
theorem c6_validate_json_string_shape :
    ∀ (loads : String → Except String Json) (s : String),
      ((∃ si, validate_json_string loads s = (true, some si, "")) ∨
        (∃ msg, validate_json_string loads s = (false, none, msg))) ∧
      (∀ e, loads s = .error e →
        validate_json_string loads s = (false, none, "Invalid JSON: " ++ e)) ∧
      (∀ doc si, loads s = .ok doc → parseSurveyInput doc = .ok si →
        validate_json_string loads s = (true, some si, "")) ∧
      (∀ doc es, loads s = .ok doc → parseSurveyInput doc = .error es →
        validate_json_string loads s =
          (false, none, "Validation errors:\n" ++ String.join (es.map renderErrLine))) := by
  intro loads s
  refine ⟨?_, ?_, ?_, ?_⟩
  · cases hl : loads s with
    | error e =>
      right
      exact ⟨"Invalid JSON: " ++ e, by simp [validate_json_string, hl]⟩
    | ok doc =>
      cases hp : parseSurveyInput doc with
      | error es =>
        right
        exact ⟨"Validation errors:\n" ++ String.join (es.map renderErrLine),
          by simp [validate_json_string, hl, hp]⟩
      | ok si => left; exact ⟨si, by simp [validate_json_string, hl, hp]⟩
  · intro e hl; simp [validate_json_string, hl]
  · intro doc si hl hp; simp [validate_json_string, hl, hp]
  · intro doc es hl hp; simp [validate_json_string, hl, hp]

/-- The claim's concrete schema-violating document as raw text. -/
def c6BadInput : String :=
  "\x7b\"title\":\"T\",\"questionnaire\":\x7b\"questions\":[\x7b\"id\":\"q1\",\"label\":\"L\",\"type\":\"singlechoice\"\x7d]\x7d\x7d"

/-- `json.loads` restricted to the inputs exercised here: it parses
`c6BadInput` to its document and rejects everything else. -/
def c6Loads : String → Except String Json := fun inp =>
  if inp = c6BadInput then .ok (c1Doc (c1Question "q1" "L" "singlechoice" []))
  else .error "Expecting value: line 1 column 1 (char 0)"

/-- **C6 (counterexample)**: on the schema-violating concrete input the third
component of the result is one single flat display string (one bullet line
per violation), not an ordered list of (field-path, message) pairs. -/
theorem c6_flat_string_counterexample :
    validate_json_string c6Loads c6BadInput =
      (false, none,
        "Validation errors:\n  • questionnaire -> questions -> 0: Value error, Questions of type \x27singlechoice\x27 must have at least one option\n") := by
  simp [validate_json_string, c6Loads, c1Doc, c1Question, parseSurveyInput,
    parseQuestionnaire, parseQuestionList, parseQuestion, parseOptionsField,
    reqField, optField, lookupAliased, lookupAliasedKey, Json.isNull, findKey, withLoc, parseTitle, parseStrJ,
    errsOf, renderErrLine, renderLoc, choiceModelMsg,
    (by decide : ("T".length = 0) = False), (by decide : pyStrip "T" = "T")]
  rfl

/-- Witness for C6: malformed input yields the `Invalid JSON` triple; a valid
document yields `(true, document, "")`. -/
theorem c6_validate_json_string_shape_witness :
    validate_json_string (fun _ => .error "Expecting value: line 1 column 1 (char 0)")
      "not valid json" =
      (false, none, "Invalid JSON: Expecting value: line 1 column 1 (char 0)") ∧
    validate_json_string (fun _ => .ok (titleDoc "T")) "doc" =
      (true, some (titleDocParsed "T"), "") :=
  ⟨(c6_validate_json_string_shape _ "not valid json").2.1 _ rfl,
   (c6_validate_json_string_shape _ "doc").2.2.1 (titleDoc "T") (titleDocParsed "T") rfl
     (by simp [titleDoc, titleDocParsed, parseSurveyInput, parseQuestionnaire,
       parseQuestionList, parseQuestion, parseOptionsField, reqField, optField,
       lookupAliased, lookupAliasedKey, Json.isNull, findKey, withLoc, parseTitle, parseStrJ, errsOf,
       (by decide : ("T".length = 0) = False), (by decide : pyStrip "T" = "T")])⟩

end LeanixSurvey
